import Mathlib

/-!
The logd ingestion gateway: LogListener::onDataAvailable.

A shallow embedding of `src/logd/LogListener.cpp`.  One invocation of
`LogListener::onDataAvailable` is a pure function from

* the constants and type layouts of the headers the file includes (`Platform`),
* the free functions and system calls it consults (`Env`),
* the listener object (`LogListener`: the `logbuf` and `reader` pointers),
* the static flag `name_set`,
* what `recvmsg` left on the stack (`Input`),

to an `Outcome`: the returned boolean, the new value of `name_set`, and the
ordered list of calls made to collaborators (`Event`).

Integer types: `pid_t` is `Int`, `uid_t`, `gid_t`, `log_id_t` and bytes are
`Nat`, `ssize_t` is `Int`; the casts `(size_t)` and `(unsigned short)` are
written out as explicit reductions modulo a power of two.
-/

namespace Logd

/-! ## Data model -/

/-- Credentials of the sender, `struct ucred` of `<sys/socket.h>`. -/
structure ucred where
  pid : Int
  uid : Nat
  gid : Nat
deriving DecidableEq, Repr

/-- Timestamp carried in the header, `log_time`. -/
structure log_time where
  tv_sec : Nat
  tv_nsec : Nat
deriving DecidableEq, Repr

/-- Fixed-size prefix of every datagram, `android_log_header_t`
(fields `id`, `tid`, `realtime`). -/
structure android_log_header_t where
  id : Nat
  tid : Nat
  realtime : log_time
deriving DecidableEq, Repr

/-- One control message of the ancillary data of a datagram; `data` is
`CMSG_DATA(cmsg)` viewed as a `struct ucred`. -/
structure cmsghdr where
  cmsg_level : Int
  cmsg_type : Int
  data : ucred
deriving DecidableEq, Repr

/-- Value of `SOL_SOCKET` on Linux. -/
def SOL_SOCKET : Int := 1

/-- Value of `SCM_CREDENTIALS` on Linux. -/
def SCM_CREDENTIALS : Int := 2

/-- Value of `USHRT_MAX` of `<limits.h>` (16-bit `unsigned short`). -/
def USHRT_MAX : Nat := 65535

/-- The cast `(size_t)n` of an `ssize_t` on an LP64 target. -/
def size_t_cast (n : Int) : Nat := (n % 2 ^ 64).toNat

/-- The cast `(unsigned short)n`. -/
def unsigned_short_cast (n : Int) : Nat := (n % 2 ^ 16).toNat

/-- The cast `static_cast<log_mask_t>(x)`, `log_mask_t` being `unsigned int`. -/
def log_mask_cast (x : Nat) : Nat := x % 2 ^ 32

/-- Constants and layouts that `LogListener.cpp` takes from headers which are
not part of the translated file (`private/android_filesystem_config.h`,
`private/android_logger.h`, `log/log.h`).  `android_log_header` is the view
`reinterpret_cast<android_log_header_t*>(buffer)` of the first
`sizeof_android_log_header_t` bytes of a buffer. -/
structure Platform where
  AID_LOGD : Nat
  DEFAULT_OVERFLOWUID : Nat
  LOG_ID_MAX : Nat
  LOG_ID_SECURITY : Nat
  LOG_ID_KERNEL : Nat
  sizeof_log_id_t : Nat
  sizeof_log_time : Nat
  sizeof_android_log_header_t : Nat
  LOGGER_ENTRY_MAX_PAYLOAD : Nat
  android_log_header : List Nat → android_log_header_t

/-- Storage backend, `LogBufferInterface`: the three virtual methods the
listener calls. -/
structure LogBufferInterface where
  tidToPid : Int → Int
  pidToUid : Int → Nat
  log : Nat → log_time → Nat → Int → Int → List Nat → Nat → Int

/-- Notification collaborator, `LogReader`; only `notifyNewLog` is used and
it returns nothing. -/
inductive LogReader where
  | mk : LogReader
deriving DecidableEq, Repr

/-- The listener object: the members `logbuf` and `reader`, each of which may
be a null pointer. -/
structure LogListener where
  logbuf : Option LogBufferInterface
  reader : Option LogReader

/-- Free functions and system calls consulted by `onDataAvailable`:
`__android_log_security()`, `clientHasLogCredentials(uid, gid, pid)`,
`android::tidToPid`, `android::pidToUid` and `getpid()`. -/
structure Env where
  android_log_security : Bool
  clientHasLogCredentials : Nat → Nat → Int → Bool
  tidToPid : Int → Int
  pidToUid : Int → Nat
  getpid : Int

/-- What is on the stack of `onDataAvailable` once `recvmsg` has returned:
its result `n`, the bytes of `buffer` (the first `n` of them are the
datagram), the control messages in `control`, and the indeterminate initial
contents of the local `fake_cred`, which has no initialiser. -/
structure Input where
  n : Int
  buffer : List Nat
  control : List cmsghdr
  fake_cred : ucred

/-- Arguments of one call `logbuf->log(log_id, realtime, uid, pid, tid, msg,
len)`; `msg` is the buffer from the address `msg` onwards. -/
structure LogCall where
  log_id : Nat
  realtime : log_time
  uid : Nat
  pid : Int
  tid : Int
  msg : List Nat
  len : Nat
deriving DecidableEq, Repr

/-- Calls made to collaborators, in program order. -/
inductive Event where
  | prctl_set_name (name : String)
  | android_log_security
  | clientHasLogCredentials (uid gid : Nat) (pid : Int)
  | logbuf_tidToPid (tid : Int)
  | android_tidToPid (tid : Int)
  | logbuf_pidToUid (pid : Int)
  | android_pidToUid (pid : Int)
  | log (call : LogCall)
  | notifyNewLog (mask : Nat)
deriving DecidableEq, Repr

/-- Result of one invocation: the returned boolean, the value of the static
`name_set` afterwards, and the calls made. -/
structure Outcome where
  ret : Bool
  name_set : Bool
  trace : List Event
deriving DecidableEq, Repr

/-! ## The steps of onDataAvailable -/

/-- Lines 40-44: name the thread unless `name_set` is already true. -/
def set_name (name_set : Bool) : List Event :=
  if name_set then [] else [Event.prctl_set_name "logd.writer"]

/-- Lines 47-48: `sizeof(buffer)`. -/
def sizeof_buffer (K : Platform) : Nat :=
  K.sizeof_log_id_t + 2 + K.sizeof_log_time + K.LOGGER_ENTRY_MAX_PAYLOAD + 1

/-- Lines 71-79: the first control message with level `SOL_SOCKET` and type
`SCM_CREDENTIALS`, if any. -/
def find_cred : List cmsghdr → Option ucred
  | [] => none
  | cmsg :: rest =>
    if cmsg.cmsg_level = SOL_SOCKET ∧ cmsg.cmsg_type = SCM_CREDENTIALS then
      some cmsg.data
    else find_cred rest

/-- Lines 69-86: the credential `cred` points to after the `fake_cred`
fallback.  Only `pid` and `uid` of `fake_cred` are assigned. -/
def extract_cred (K : Platform) (i : Input) : ucred :=
  match find_cred i.control with
  | some cred => cred
  | none => { i.fake_cred with pid := 0, uid := K.DEFAULT_OVERFLOWUID }

/-- Line 67: `buffer[n] = 0`. -/
def terminate (i : Input) : List Nat :=
  i.buffer.set i.n.toNat 0

/-- Lines 95-97: the header read through the cast of `buffer`. -/
def header_of (K : Platform) (i : Input) : android_log_header_t :=
  K.android_log_header (terminate i)

/-- Lines 103-107: the SECURITY gate with its short-circuit evaluation.
First component: whether the function goes on (false means `return false`). -/
def security_gate (K : Platform) (E : Env) (logId : Nat) (cred : ucred) :
    Bool × List Event :=
  if logId = K.LOG_ID_SECURITY then
    if E.android_log_security = false then
      (false, [Event.android_log_security])
    else if E.clientHasLogCredentials cred.uid cred.gid cred.pid = false then
      (false, [Event.android_log_security,
               Event.clientHasLogCredentials cred.uid cred.gid cred.pid])
    else
      (true, [Event.android_log_security,
              Event.clientHasLogCredentials cred.uid cred.gid cred.pid])
  else (true, [])

/-- Lines 111-112: `logbuf ? logbuf->tidToPid(tid) : android::tidToPid(tid)`. -/
def call_tidToPid (E : Env) (logbuf : Option LogBufferInterface) (tid : Int) :
    Int × List Event :=
  match logbuf with
  | some lb => (lb.tidToPid tid, [Event.logbuf_tidToPid tid])
  | none => (E.tidToPid tid, [Event.android_tidToPid tid])

/-- Lines 110-119: process-id repair.  `none` means `return false`. -/
def repair_pid (E : Env) (logbuf : Option LogBufferInterface)
    (header : android_log_header_t) (cred : ucred) : Option ucred × List Event :=
  if cred.pid = 0 then
    let r := call_tidToPid E logbuf (header.tid : Int)
    if r.1 = E.getpid then (none, r.2)
    else (some { cred with pid := r.1 }, r.2)
  else (some cred, [])

/-- Lines 121-122: `logbuf ? logbuf->pidToUid(pid) : android::pidToUid(pid)`,
called with `cred->pid`. -/
def call_pidToUid (E : Env) (logbuf : Option LogBufferInterface) (pid : Int) :
    Nat × List Event :=
  match logbuf with
  | some lb => (lb.pidToUid pid, [Event.logbuf_pidToUid pid])
  | none => (E.pidToUid pid, [Event.android_pidToUid pid])

/-- Lines 124-125: `logbuf ? logbuf->pidToUid(header->tid) :
android::pidToUid(cred->pid)`. -/
def retry_pidToUid (E : Env) (logbuf : Option LogBufferInterface)
    (header : android_log_header_t) (cred : ucred) : Nat × List Event :=
  match logbuf with
  | some lb => (lb.pidToUid (header.tid : Int), [Event.logbuf_pidToUid (header.tid : Int)])
  | none => (E.pidToUid cred.pid, [Event.android_pidToUid cred.pid])

/-- Lines 120-128: user-id repair. -/
def repair_uid (K : Platform) (E : Env) (logbuf : Option LogBufferInterface)
    (header : android_log_header_t) (cred : ucred) : ucred × List Event :=
  if cred.uid = K.DEFAULT_OVERFLOWUID then
    let r1 := call_pidToUid E logbuf cred.pid
    let r2 := if r1.1 = K.AID_LOGD then retry_pidToUid E logbuf header cred
              else (r1.1, [])
    let cred2 := if r2.1 ≠ K.AID_LOGD then { cred with uid := r2.1 } else cred
    (cred2, r1.2 ++ r2.2)
  else (cred, [])

/-- Line 139: `((size_t)n <= USHRT_MAX) ? (unsigned short)n : USHRT_MAX`. -/
def clamp_len (n : Int) : Nat :=
  if size_t_cast n ≤ USHRT_MAX then unsigned_short_cast n else USHRT_MAX

/-- Lines 130-139: the arguments of `logbuf->log`, for the repaired
credential `cred`. -/
def log_call (K : Platform) (i : Input) (cred : ucred) : LogCall :=
  let header := header_of K i
  { log_id := header.id
    realtime := header.realtime
    uid := cred.uid
    pid := cred.pid
    tid := (header.tid : Int)
    msg := (terminate i).drop K.sizeof_android_log_header_t
    len := clamp_len (i.n - (K.sizeof_android_log_header_t : Int)) }

/-- Lines 136-143: hand the record to storage and notify the reader. -/
def dispatch (self : LogListener) (call : LogCall) : List Event :=
  match self.logbuf with
  | some lb =>
    let res := lb.log call.log_id call.realtime call.uid call.pid call.tid
      call.msg call.len
    Event.log call ::
      (if res > 0 ∧ self.reader ≠ none then
        [Event.notifyNewLog (log_mask_cast (1 <<< call.log_id))]
      else [])
  | none => []

/-- The method `LogListener::onDataAvailable` (lines 39-146). -/
def LogListener.onDataAvailable (K : Platform) (E : Env) (self : LogListener)
    (name_set : Bool) (i : Input) : Outcome :=
  let t0 := set_name name_set
  if i.n ≤ (K.sizeof_android_log_header_t : Int) then ⟨false, true, t0⟩ else
  let cred := extract_cred K i
  if cred.uid = K.AID_LOGD then ⟨false, true, t0⟩ else
  let header := header_of K i
  let logId := header.id
  if logId ≥ K.LOG_ID_MAX ∨ logId = K.LOG_ID_KERNEL then ⟨false, true, t0⟩ else
  let sec := security_gate K E logId cred
  if sec.1 = false then ⟨false, true, t0 ++ sec.2⟩ else
  let rp := repair_pid E self.logbuf header cred
  match rp.1 with
  | none => ⟨false, true, t0 ++ sec.2 ++ rp.2⟩
  | some cred1 =>
    let ru := repair_uid K E self.logbuf header cred1
    ⟨true, true, t0 ++ sec.2 ++ rp.2 ++ ru.2 ++ dispatch self (log_call K i ru.1)⟩

/-! ## Observations on a trace -/

/-- The calls to `logbuf->log` in a trace, in order. -/
def logCalls : List Event → List LogCall
  | [] => []
  | Event.log c :: rest => c :: logCalls rest
  | _ :: rest => logCalls rest

/-- The masks of the calls to `reader->notifyNewLog` in a trace, in order. -/
def notifyCalls : List Event → List Nat
  | [] => []
  | Event.notifyNewLog m :: rest => m :: notifyCalls rest
  | _ :: rest => notifyCalls rest

/-- Whether an event is a call of one of the four lookups `tidToPid` /
`pidToUid` (of `logbuf` or of namespace `android`). -/
def Event.isLookup : Event → Bool
  | Event.logbuf_tidToPid _ => true
  | Event.android_tidToPid _ => true
  | Event.logbuf_pidToUid _ => true
  | Event.android_pidToUid _ => true
  | _ => false

/-! ## A concrete platform and sample datagrams -/

/-- Little-endian value of a list of bytes. -/
def le_value : List Nat → Nat
  | [] => 0
  | b :: bs => b + 256 * le_value bs

/-- Modelled from the spec: the layout of `android_log_header_t`, declared in
`private/android_logger.h`, which is not under src/.  Section 6 of the spec
gives the wire format: category 1 byte, thread id 2 bytes, timestamp 12 bytes
(seconds 8, nanoseconds 4), host-endian (little-endian here). -/
def spec_header (buf : List Nat) : android_log_header_t :=
  { id := buf.getD 0 0
    tid := le_value ((buf.drop 1).take 2)
    realtime := { tv_sec := le_value ((buf.drop 3).take 8)
                  tv_nsec := le_value ((buf.drop 11).take 4) } }

/-- Modelled from the spec: values for the constants of the headers that are
not under src/.  The overflow sentinel 65534 and the order of the categories
(MAIN, RADIO, EVENTS, SYSTEM, CRASH, SECURITY, KERNEL) are those of the spec,
the header is 1 + 2 + 12 bytes as in its wire format; the daemon user id 1036
and the payload bound 4068 are the AOSP values.  Used for the concrete
instances only: the general theorems hold for every `Platform`. -/
def specPlatform : Platform :=
  { AID_LOGD := 1036
    DEFAULT_OVERFLOWUID := 65534
    LOG_ID_MAX := 7
    LOG_ID_SECURITY := 5
    LOG_ID_KERNEL := 6
    sizeof_log_id_t := 1
    sizeof_log_time := 12
    sizeof_android_log_header_t := 15
    LOGGER_ENTRY_MAX_PAYLOAD := 4068
    android_log_header := spec_header }

/-- Category MAIN of `specPlatform`. -/
def LOG_ID_MAIN : Nat := 0

/-- Wire bytes of a header of `specPlatform`: category `id`, thread id 42,
timestamp 1 s 2 ns. -/
def sample_header (id : Nat) : List Nat :=
  [id, 42, 0, 1, 0, 0, 0, 0, 0, 0, 0, 2, 0, 0, 0]

/-- The timestamp of `sample_header`. -/
def sample_ts : log_time := { tv_sec := 1, tv_nsec := 2 }

/-- A 10-byte payload. -/
def sample_payload : List Nat := [104, 101, 108, 108, 111, 32, 108, 111, 103, 100]

/-- Stack buffer of `sizeof_buffer specPlatform` bytes holding the datagram
`bytes`; the bytes behind the datagram are left from earlier use (here 255). -/
def sample_buffer (bytes : List Nat) : List Nat :=
  bytes ++ List.replicate (sizeof_buffer specPlatform - bytes.length) 255

/-- A control message carrying the credentials `c`. -/
def cred_cmsg (c : ucred) : cmsghdr :=
  { cmsg_level := SOL_SOCKET, cmsg_type := SCM_CREDENTIALS, data := c }

/-- Stack after receiving the 25-byte datagram `sample_header id ++
sample_payload` with the control messages `control`; `fake_cred` holds
zeroes. -/
def sample_input (id : Nat) (control : List cmsghdr) : Input :=
  { n := 25
    buffer := sample_buffer (sample_header id ++ sample_payload)
    control := control
    fake_cred := { pid := 0, uid := 0, gid := 0 } }

/-- A storage backend that accepts every record (returns the length plus
one), with thread 42 in process 100 and process 100 owned by user 1000. -/
def sample_logbuf : LogBufferInterface :=
  { tidToPid := fun tid => if tid = 42 then 100 else 0
    pidToUid := fun pid => if pid = 100 then 1000 else 65534
    log := fun _ _ _ _ _ _ len => (len : Int) + 1 }

/-- A listener with storage and reader configured. -/
def sample_listener : LogListener :=
  { logbuf := some sample_logbuf, reader := some LogReader.mk }

/-- An environment: the daemon is process 7, thread 42 is in process 100,
process 100 is owned by user 1000; security logging is `flag` and the
authorization check answers `auth` for every sender. -/
def sample_env (flag auth : Bool) : Env :=
  { android_log_security := flag
    clientHasLogCredentials := fun _ _ _ => auth
    tidToPid := fun tid => if tid = 42 then 100 else 0
    pidToUid := fun pid => if pid = 100 then 1000 else 65534
    getpid := 7 }

/-- The lookups made in a trace, in order. -/
def lookups (tr : List Event) : List Event :=
  tr.filter Event.isLookup

/-- An environment in which process 100, the owner of thread 42, runs under
the daemon's user id 1036 while the thread id 42 itself maps to user 1000;
the daemon is process 7. -/
def daemon_owned_env : Env :=
  { android_log_security := true
    clientHasLogCredentials := fun _ _ _ => true
    tidToPid := fun tid => if tid = 42 then 100 else 0
    pidToUid := fun pid => if pid = 100 then 1036 else 1000
    getpid := 7 }

/-- A storage backend with the same lookups as `daemon_owned_env`. -/
def daemon_owned_logbuf : LogBufferInterface :=
  { tidToPid := fun tid => if tid = 42 then 100 else 0
    pidToUid := fun pid => if pid = 100 then 1036 else 1000
    log := fun _ _ _ _ _ _ len => (len : Int) + 1 }

/-- An environment whose authorization check admits exactly the senders with
user id 0 or group id 0; security logging is enabled. -/
def root_group_env : Env :=
  { android_log_security := true
    clientHasLogCredentials := fun uid gid _ => decide (uid = 0) || decide (gid = 0)
    tidToPid := fun tid => if tid = 42 then 100 else 0
    pidToUid := fun pid => if pid = 100 then 1000 else 65534
    getpid := 7 }

/-! ## Further observations and sample collaborators -/

/-- Line 49: the length of the iovec handed to `recvmsg`,
`sizeof(buffer) - 1`. -/
def iov_len (K : Platform) : Nat :=
  sizeof_buffer K - 1

/-- Line 127: the value of the local `uid` once the lookup of lines 121-122
and the retry of lines 123-126 are done. -/
def lookup_uid (K : Platform) (E : Env) (logbuf : Option LogBufferInterface)
    (header : android_log_header_t) (cred : ucred) : Nat :=
  if (call_pidToUid E logbuf cred.pid).1 = K.AID_LOGD then
    (retry_pidToUid E logbuf header cred).1
  else (call_pidToUid E logbuf cred.pid).1

/-- Whether an event is a call of `pidToUid` (of `logbuf` or of namespace
`android`). -/
def Event.isPidToUid : Event → Bool
  | Event.logbuf_pidToUid _ => true
  | Event.android_pidToUid _ => true
  | _ => false

/-- Whether an event is a call of `tidToPid` (of `logbuf` or of namespace
`android`). -/
def Event.isTidToPid : Event → Bool
  | Event.logbuf_tidToPid _ => true
  | Event.android_tidToPid _ => true
  | _ => false

/-- Whether an event consults the SECURITY policy: `__android_log_security()`
or `clientHasLogCredentials`. -/
def Event.isSecurityQuery : Event → Bool
  | Event.android_log_security => true
  | Event.clientHasLogCredentials _ _ _ => true
  | _ => false

/-- The names given by the calls `prctl(PR_SET_NAME, name)` in a trace. -/
def namingCalls : List Event → List String
  | [] => []
  | Event.prctl_set_name name :: rest => name :: namingCalls rest
  | _ :: rest => namingCalls rest

/-- The credential triples asked of `clientHasLogCredentials` in a trace. -/
def credentialChecks : List Event → List ucred
  | [] => []
  | Event.clientHasLogCredentials uid gid pid :: rest =>
    { pid := pid, uid := uid, gid := gid } :: credentialChecks rest
  | _ :: rest => credentialChecks rest

/-- A storage backend whose table still maps thread 42 to process 7, the
daemon of `sample_env`, while the system maps it to process 100. -/
def stale_logbuf : LogBufferInterface :=
  { tidToPid := fun tid => if tid = 42 then 7 else 0
    pidToUid := fun pid => if pid = 100 then 1000 else 65534
    log := fun _ _ _ _ _ _ len => (len : Int) + 1 }

/-- A storage backend that answers the daemon's user id 1036 for every
process id, and maps thread 42 to process 100. -/
def all_daemon_logbuf : LogBufferInterface :=
  { tidToPid := fun tid => if tid = 42 then 100 else 0
    pidToUid := fun _ => 1036
    log := fun _ _ _ _ _ _ len => (len : Int) + 1 }

/-- A platform like `specPlatform` whose payload bound, 70000, exceeds
`USHRT_MAX`, so that a datagram can carry more than 65535 payload bytes. -/
def wide_platform : Platform :=
  { specPlatform with LOGGER_ENTRY_MAX_PAYLOAD := 70000 }

/-- Stack after receiving, on `wide_platform`, a datagram of 65551 bytes:
`sample_header id` followed by a payload of 65536 bytes, one more than
`USHRT_MAX`; the buffer has `sizeof_buffer wide_platform` = 70016 bytes. -/
def wide_input (id : Nat) (control : List cmsghdr) : Input :=
  { n := 65551
    buffer := sample_header id ++ List.replicate 65536 97 ++
      List.replicate (sizeof_buffer wide_platform - 65551) 255
    control := control
    fake_cred := { pid := 0, uid := 0, gid := 0 } }

/-! ## The accepting path -/

/-- The datagram passes every check of lines 62-119: long enough, not from
the daemon's user, valid category, SECURITY gate open, and the repaired
process id is not the daemon's; `cred1` is the credential after process-id
repair. -/
def Passes (K : Platform) (E : Env) (self : LogListener) (i : Input)
    (cred1 : ucred) : Prop :=
  (K.sizeof_android_log_header_t : Int) < i.n ∧
  (extract_cred K i).uid ≠ K.AID_LOGD ∧
  (header_of K i).id < K.LOG_ID_MAX ∧
  (header_of K i).id ≠ K.LOG_ID_KERNEL ∧
  (security_gate K E (header_of K i).id (extract_cred K i)).1 = true ∧
  (repair_pid E self.logbuf (header_of K i) (extract_cred K i)).1 = some cred1

end Logd

namespace Logd

/-! ## Lemmas on traces -/

@[simp] theorem logCalls_append (a b : List Event) :
    logCalls (a ++ b) = logCalls a ++ logCalls b := by
  induction a with
  | nil => rfl
  | cons e rest ih => cases e <;> simp [logCalls, ih]

@[simp] theorem notifyCalls_append (a b : List Event) :
    notifyCalls (a ++ b) = notifyCalls a ++ notifyCalls b := by
  induction a with
  | nil => rfl
  | cons e rest ih => cases e <;> simp [notifyCalls, ih]

@[simp] theorem logCalls_set_name (b : Bool) : logCalls (set_name b) = [] := by
  cases b <;> rfl

@[simp] theorem notifyCalls_set_name (b : Bool) : notifyCalls (set_name b) = [] := by
  cases b <;> rfl

@[simp] theorem logCalls_security_gate (K : Platform) (E : Env) (logId : Nat)
    (cred : ucred) : logCalls (security_gate K E logId cred).2 = [] := by
  unfold security_gate
  split_ifs <;> rfl

@[simp] theorem notifyCalls_security_gate (K : Platform) (E : Env) (logId : Nat)
    (cred : ucred) : notifyCalls (security_gate K E logId cred).2 = [] := by
  unfold security_gate
  split_ifs <;> rfl

@[simp] theorem logCalls_repair_pid (E : Env) (logbuf : Option LogBufferInterface)
    (header : android_log_header_t) (cred : ucred) :
    logCalls (repair_pid E logbuf header cred).2 = [] := by
  unfold repair_pid call_tidToPid
  cases logbuf <;> simp only [] <;> split_ifs <;> rfl

@[simp] theorem notifyCalls_repair_pid (E : Env) (logbuf : Option LogBufferInterface)
    (header : android_log_header_t) (cred : ucred) :
    notifyCalls (repair_pid E logbuf header cred).2 = [] := by
  unfold repair_pid call_tidToPid
  cases logbuf <;> simp only [] <;> split_ifs <;> rfl

@[simp] theorem logCalls_repair_uid (K : Platform) (E : Env)
    (logbuf : Option LogBufferInterface) (header : android_log_header_t)
    (cred : ucred) : logCalls (repair_uid K E logbuf header cred).2 = [] := by
  unfold repair_uid call_pidToUid retry_pidToUid
  cases logbuf <;> simp only [] <;> split_ifs <;> rfl

@[simp] theorem notifyCalls_repair_uid (K : Platform) (E : Env)
    (logbuf : Option LogBufferInterface) (header : android_log_header_t)
    (cred : ucred) : notifyCalls (repair_uid K E logbuf header cred).2 = [] := by
  unfold repair_uid call_pidToUid retry_pidToUid
  cases logbuf <;> simp only [] <;> split_ifs <;> rfl

theorem logCalls_dispatch (self : LogListener) (call : LogCall) :
    logCalls (dispatch self call) = if self.logbuf.isSome then [call] else [] := by
  unfold dispatch
  cases h : self.logbuf with
  | none => simp [logCalls]
  | some lb =>
    by_cases hr : lb.log call.log_id call.realtime call.uid call.pid call.tid
        call.msg call.len > 0 ∧ self.reader ≠ none <;> simp [hr, logCalls]

/-! ## Lemmas on the accepting path -/

/-- On the accepting path the method returns true and its trace is the
concatenation of the traces of its steps. -/
theorem onDataAvailable_of_passes (K : Platform) (E : Env) (self : LogListener)
    (name_set : Bool) (i : Input) (cred1 : ucred)
    (h : Passes K E self i cred1) :
    LogListener.onDataAvailable K E self name_set i =
      ⟨true, true,
        set_name name_set ++
        (security_gate K E (header_of K i).id (extract_cred K i)).2 ++
        (repair_pid E self.logbuf (header_of K i) (extract_cred K i)).2 ++
        (repair_uid K E self.logbuf (header_of K i) cred1).2 ++
        dispatch self
          (log_call K i (repair_uid K E self.logbuf (header_of K i) cred1).1)⟩ := by
  obtain ⟨h1, h2, h3, h4, h5, h6⟩ := h
  unfold LogListener.onDataAvailable
  simp [not_le.mpr h1, h2, not_le.mpr h3, h4, h5, h6]

/-- A datagram is either rejected without any call to storage or reader, or
it is on the accepting path. -/
theorem rejected_or_passes (K : Platform) (E : Env) (self : LogListener)
    (name_set : Bool) (i : Input) :
    ((LogListener.onDataAvailable K E self name_set i).ret = false ∧
      logCalls (LogListener.onDataAvailable K E self name_set i).trace = [] ∧
      notifyCalls (LogListener.onDataAvailable K E self name_set i).trace = []) ∨
    ∃ cred1, Passes K E self i cred1 := by
  by_cases h1 : (K.sizeof_android_log_header_t : Int) < i.n
  swap
  · left; unfold LogListener.onDataAvailable; simp [not_lt.mp h1]
  by_cases h2 : (extract_cred K i).uid = K.AID_LOGD
  · left; unfold LogListener.onDataAvailable; simp [not_le.mpr h1, h2]
  by_cases h3 : (header_of K i).id < K.LOG_ID_MAX
  swap
  · left; unfold LogListener.onDataAvailable; simp [not_le.mpr h1, h2, not_lt.mp h3]
  by_cases h4 : (header_of K i).id = K.LOG_ID_KERNEL
  · left; unfold LogListener.onDataAvailable; simp [not_le.mpr h1, h2, h4]
  by_cases h5 : (security_gate K E (header_of K i).id (extract_cred K i)).1 = true
  swap
  · left; unfold LogListener.onDataAvailable
    simp only [Bool.not_eq_true] at h5
    simp [not_le.mpr h1, h2, not_le.mpr h3, h4, h5]
  cases h6 : (repair_pid E self.logbuf (header_of K i) (extract_cred K i)).1 with
  | none =>
    left; unfold LogListener.onDataAvailable
    simp [not_le.mpr h1, h2, not_le.mpr h3, h4, h5, h6]
  | some cred1 => exact Or.inr ⟨cred1, h1, h2, h3, h4, h5, h6⟩

/-- The calls to storage on the accepting path: exactly one when a backend is
configured, none otherwise. -/
theorem logCalls_of_passes (K : Platform) (E : Env) (self : LogListener)
    (name_set : Bool) (i : Input) (cred1 : ucred)
    (h : Passes K E self i cred1) :
    logCalls (LogListener.onDataAvailable K E self name_set i).trace =
      if self.logbuf.isSome then
        [log_call K i (repair_uid K E self.logbuf (header_of K i) cred1).1]
      else [] := by
  rw [onDataAvailable_of_passes K E self name_set i cred1 h]
  simp [logCalls_dispatch]

/-- The SECURITY gate lets a datagram through exactly when its category is
not SECURITY or both the flag and the authorization check are true. -/
theorem security_gate_pass_iff (K : Platform) (E : Env) (logId : Nat)
    (cred : ucred) :
    (security_gate K E logId cred).1 = true ↔
      (logId = K.LOG_ID_SECURITY →
        E.android_log_security = true ∧
        E.clientHasLogCredentials cred.uid cred.gid cred.pid = true) := by
  unfold security_gate
  by_cases h : logId = K.LOG_ID_SECURITY
  · cases h1 : E.android_log_security <;>
      cases h2 : E.clientHasLogCredentials cred.uid cred.gid cred.pid <;>
      simp [h]
  · simp [h]

/-- User-id repair never touches the process id. -/
theorem repair_uid_pid (K : Platform) (E : Env) (logbuf : Option LogBufferInterface)
    (header : android_log_header_t) (cred : ucred) :
    (repair_uid K E logbuf header cred).1.pid = cred.pid := by
  unfold repair_uid
  simp only []
  split_ifs <;> rfl

/-- The notifications on the accepting path are those of the dispatch step. -/
theorem notifyCalls_of_passes (K : Platform) (E : Env) (self : LogListener)
    (name_set : Bool) (i : Input) (cred1 : ucred)
    (h : Passes K E self i cred1) :
    notifyCalls (LogListener.onDataAvailable K E self name_set i).trace =
      notifyCalls (dispatch self
        (log_call K i (repair_uid K E self.logbuf (header_of K i) cred1).1)) := by
  rw [onDataAvailable_of_passes K E self name_set i cred1 h]
  simp

/-- When the category is not SECURITY the gate is open and consults nothing. -/
theorem security_gate_of_ne (K : Platform) (E : Env) (logId : Nat) (cred : ucred)
    (h : logId ≠ K.LOG_ID_SECURITY) : security_gate K E logId cred = (true, []) := by
  unfold security_gate
  simp [h]

/-- A non-zero process id is kept and no lookup is made. -/
theorem repair_pid_of_ne (E : Env) (logbuf : Option LogBufferInterface)
    (header : android_log_header_t) (cred : ucred) (h : cred.pid ≠ 0) :
    repair_pid E logbuf header cred = (some cred, []) := by
  unfold repair_pid
  simp [h]

/-- A user id other than the overflow sentinel is kept and no lookup is made. -/
theorem repair_uid_of_ne (K : Platform) (E : Env) (logbuf : Option LogBufferInterface)
    (header : android_log_header_t) (cred : ucred)
    (h : cred.uid ≠ K.DEFAULT_OVERFLOWUID) :
    repair_uid K E logbuf header cred = (cred, []) := by
  unfold repair_uid
  simp [h]

/-- For a positive `ssize_t` the length expression of line 139 is the minimum
of the value and `USHRT_MAX`. -/
theorem clamp_len_eq (n : Int) (h0 : 0 ≤ n) (h1 : n < 2 ^ 63) :
    (clamp_len n : Int) = min n 65535 := by
  have e64 : (2 : Int) ^ 64 = 18446744073709551616 := by norm_num
  have e63 : (2 : Int) ^ 63 = 9223372036854775808 := by norm_num
  have e16 : (2 : Int) ^ 16 = 65536 := by norm_num
  rw [e63] at h1
  unfold clamp_len size_t_cast unsigned_short_cast USHRT_MAX
  rw [e64, e16]
  split_ifs with h <;> omega

/-- The steps before and after the lookups make no lookup. -/
theorem isLookup_set_name (b : Bool) : ∀ e ∈ set_name b, e.isLookup = false := by
  cases b <;> simp [set_name, Event.isLookup]

/-- The dispatch step makes no lookup. -/
theorem isLookup_dispatch (self : LogListener) (call : LogCall) :
    ∀ e ∈ dispatch self call, e.isLookup = false := by
  unfold dispatch
  cases self.logbuf with
  | none => simp
  | some lb =>
    simp only []
    intro e he
    split_ifs at he
    · simp only [List.mem_cons, List.mem_singleton, List.not_mem_nil, or_false] at he
      rcases he with he | he <;> subst he <;> rfl
    · simp only [List.mem_cons, List.not_mem_nil, or_false] at he
      subst he
      rfl

/-- C1: a datagram longer than the header whose ancillary credential carries
the user id `AID_LOGD` is dropped: the method returns false and calls neither
`logbuf->log` nor `reader->notifyNewLog`, whatever the buffer holds. -/
theorem self_uid_dropped (K : Platform) (E : Env) (self : LogListener)
    (name_set : Bool) (i : Input) (cred : ucred)
    (hcred : find_cred i.control = some cred)
    (huid : cred.uid = K.AID_LOGD)
    (hlen : (K.sizeof_android_log_header_t : Int) < i.n) :
    (LogListener.onDataAvailable K E self name_set i).ret = false ∧
    logCalls (LogListener.onDataAvailable K E self name_set i).trace = [] ∧
    notifyCalls (LogListener.onDataAvailable K E self name_set i).trace = [] := by
  have hx : (extract_cred K i).uid = K.AID_LOGD := by
    simp [extract_cred, hcred, huid]
  unfold LogListener.onDataAvailable
  simp [not_le.mpr hlen, hx]

/-- Instance for C1 (scenario 3 of the spec): credential
`pid 0, uid AID_LOGD, gid 0` on a MAIN datagram of 25 bytes. -/
theorem self_uid_dropped_witness :
    find_cred (sample_input LOG_ID_MAIN [cred_cmsg ⟨0, 1036, 0⟩]).control
      = some ⟨0, 1036, 0⟩ ∧
    (⟨0, 1036, 0⟩ : ucred).uid = specPlatform.AID_LOGD ∧
    (specPlatform.sizeof_android_log_header_t : Int)
      < (sample_input LOG_ID_MAIN [cred_cmsg ⟨0, 1036, 0⟩]).n ∧
    (LogListener.onDataAvailable specPlatform (sample_env true true)
      sample_listener false
      (sample_input LOG_ID_MAIN [cred_cmsg ⟨0, 1036, 0⟩])).ret = false ∧
    logCalls (LogListener.onDataAvailable specPlatform (sample_env true true)
      sample_listener false
      (sample_input LOG_ID_MAIN [cred_cmsg ⟨0, 1036, 0⟩])).trace = [] ∧
    notifyCalls (LogListener.onDataAvailable specPlatform (sample_env true true)
      sample_listener false
      (sample_input LOG_ID_MAIN [cred_cmsg ⟨0, 1036, 0⟩])).trace = [] :=
  ⟨by decide, by decide, by decide,
   self_uid_dropped specPlatform (sample_env true true) sample_listener false
     (sample_input LOG_ID_MAIN [cred_cmsg ⟨0, 1036, 0⟩]) ⟨0, 1036, 0⟩
     (by decide) (by decide) (by decide)⟩

/-- C2: a SECURITY datagram is dropped (false returned, `logbuf->log` not
called) when `__android_log_security()` is false, and also when it is true
but `clientHasLogCredentials(cred->uid, cred->gid, cred->pid)` is false; so a
SECURITY datagram for which `logbuf->log` is called has passed both gates. -/
theorem security_dual_gate (K : Platform) (E : Env) (self : LogListener)
    (name_set : Bool) (i : Input)
    (hsec : (header_of K i).id = K.LOG_ID_SECURITY) :
    ((E.android_log_security = false ∨
        E.clientHasLogCredentials (extract_cred K i).uid (extract_cred K i).gid
          (extract_cred K i).pid = false) →
      (LogListener.onDataAvailable K E self name_set i).ret = false ∧
      logCalls (LogListener.onDataAvailable K E self name_set i).trace = []) ∧
    (logCalls (LogListener.onDataAvailable K E self name_set i).trace ≠ [] →
      E.android_log_security = true ∧
      E.clientHasLogCredentials (extract_cred K i).uid (extract_cred K i).gid
        (extract_cred K i).pid = true) := by
  have key : (E.android_log_security = false ∨
        E.clientHasLogCredentials (extract_cred K i).uid (extract_cred K i).gid
          (extract_cred K i).pid = false) →
      (LogListener.onDataAvailable K E self name_set i).ret = false ∧
      logCalls (LogListener.onDataAvailable K E self name_set i).trace = [] := by
    intro h
    have hg : (security_gate K E K.LOG_ID_SECURITY (extract_cred K i)).1 = false := by
      unfold security_gate
      rcases h with h | h
      · simp [h]
      · by_cases h1 : E.android_log_security = false <;> simp [h, h1]
    unfold LogListener.onDataAvailable
    simp only [hsec, hg]
    split_ifs <;> simp
  refine ⟨key, fun hne => ?_⟩
  by_contra hcon
  apply hne
  apply (key _).2
  by_cases h1 : E.android_log_security = false
  · exact Or.inl h1
  · right
    simp only [Bool.not_eq_false] at h1
    simpa [h1] using hcon

/-- Instance for C2 (scenario 4 of the spec): SECURITY datagram, flag
enabled, authorization check false. -/
theorem security_dual_gate_witness :
    (header_of specPlatform (sample_input 5 [cred_cmsg ⟨100, 1000, 1000⟩])).id
      = specPlatform.LOG_ID_SECURITY ∧
    (LogListener.onDataAvailable specPlatform (sample_env true false)
      sample_listener false
      (sample_input 5 [cred_cmsg ⟨100, 1000, 1000⟩])).ret = false ∧
    logCalls (LogListener.onDataAvailable specPlatform (sample_env true false)
      sample_listener false
      (sample_input 5 [cred_cmsg ⟨100, 1000, 1000⟩])).trace = [] :=
  ⟨by decide,
   (security_dual_gate specPlatform (sample_env true false) sample_listener false
     (sample_input 5 [cred_cmsg ⟨100, 1000, 1000⟩]) (by decide)).1
     (Or.inr (by decide))⟩

/-- C3: a datagram whose header category is `LOG_ID_KERNEL` or is at least
`LOG_ID_MAX` is dropped (false returned, `logbuf->log` not called); and every
call of `logbuf->log` carries a category below `LOG_ID_MAX` and different
from `LOG_ID_KERNEL`. -/
theorem invalid_category_dropped (K : Platform) (E : Env) (self : LogListener)
    (name_set : Bool) (i : Input) :
    ((K.LOG_ID_MAX ≤ (header_of K i).id ∨ (header_of K i).id = K.LOG_ID_KERNEL) →
      (LogListener.onDataAvailable K E self name_set i).ret = false ∧
      logCalls (LogListener.onDataAvailable K E self name_set i).trace = []) ∧
    (∀ c ∈ logCalls (LogListener.onDataAvailable K E self name_set i).trace,
      c.log_id < K.LOG_ID_MAX ∧ c.log_id ≠ K.LOG_ID_KERNEL) := by
  rcases rejected_or_passes K E self name_set i with ⟨hr, hl, _⟩ | ⟨cred1, hp⟩
  · refine ⟨fun _ => ⟨hr, hl⟩, ?_⟩
    rw [hl]
    intro c hc
    cases hc
  · have hp2 := hp
    obtain ⟨_, _, h3, h4, _, _⟩ := hp2
    refine ⟨fun hbad => ?_, ?_⟩
    · rcases hbad with hbad | hbad
      · exact absurd h3 (not_lt.mpr hbad)
      · exact absurd hbad h4
    · rw [logCalls_of_passes K E self name_set i cred1 hp]
      intro c hc
      split_ifs at hc
      · rw [List.mem_singleton] at hc
        subst hc
        exact ⟨h3, h4⟩
      · cases hc

/-- C4: when the result of `recvmsg` is at most `sizeof(android_log_header_t)`
(equal to it, zero, or negative) the method returns false and calls neither
`logbuf->log` nor `reader->notifyNewLog`, whatever the credentials are. -/
theorem short_message_dropped (K : Platform) (E : Env) (self : LogListener)
    (name_set : Bool) (i : Input)
    (hlen : i.n ≤ (K.sizeof_android_log_header_t : Int)) :
    (LogListener.onDataAvailable K E self name_set i).ret = false ∧
    logCalls (LogListener.onDataAvailable K E self name_set i).trace = [] ∧
    notifyCalls (LogListener.onDataAvailable K E self name_set i).trace = [] := by
  unfold LogListener.onDataAvailable
  simp [hlen]

/-- Instance for C4 (scenario 5 of the spec): a datagram of exactly
`sizeof(android_log_header_t)` = 15 bytes, with valid credentials. -/
theorem short_message_dropped_witness :
    ({ sample_input LOG_ID_MAIN [cred_cmsg ⟨100, 1000, 1000⟩] with n := 15 } : Input).n
      ≤ (specPlatform.sizeof_android_log_header_t : Int) ∧
    (LogListener.onDataAvailable specPlatform (sample_env true true)
      sample_listener false
      { sample_input LOG_ID_MAIN [cred_cmsg ⟨100, 1000, 1000⟩] with n := 15 }).ret
      = false ∧
    logCalls (LogListener.onDataAvailable specPlatform (sample_env true true)
      sample_listener false
      { sample_input LOG_ID_MAIN [cred_cmsg ⟨100, 1000, 1000⟩] with n := 15 }).trace
      = [] ∧
    notifyCalls (LogListener.onDataAvailable specPlatform (sample_env true true)
      sample_listener false
      { sample_input LOG_ID_MAIN [cred_cmsg ⟨100, 1000, 1000⟩] with n := 15 }).trace
      = [] :=
  ⟨by decide,
   short_message_dropped specPlatform (sample_env true true) sample_listener false
     { sample_input LOG_ID_MAIN [cred_cmsg ⟨100, 1000, 1000⟩] with n := 15 }
     (by decide)⟩

/-! ## Outcome of process-id repair -/

/-- For a datagram that passes the checks before process-id repair and whose
credential has `pid` 0, in terms of the step `call_tidToPid`: its events are
in the trace; when its result is `getpid()` the datagram is dropped, and
otherwise it is accepted and the result is the `pid` of the storage call. -/
theorem repair_pid_outcome (K : Platform) (E : Env) (self : LogListener)
    (name_set : Bool) (i : Input)
    (hlen : (K.sizeof_android_log_header_t : Int) < i.n)
    (huid : (extract_cred K i).uid ≠ K.AID_LOGD)
    (hmax : (header_of K i).id < K.LOG_ID_MAX)
    (hker : (header_of K i).id ≠ K.LOG_ID_KERNEL)
    (hsec : (header_of K i).id = K.LOG_ID_SECURITY →
      E.android_log_security = true ∧
      E.clientHasLogCredentials (extract_cred K i).uid (extract_cred K i).gid
        (extract_cred K i).pid = true)
    (hpid : (extract_cred K i).pid = 0) :
    (∀ e ∈ (call_tidToPid E self.logbuf ((header_of K i).tid : Int)).2,
      e ∈ (LogListener.onDataAvailable K E self name_set i).trace) ∧
    ((call_tidToPid E self.logbuf ((header_of K i).tid : Int)).1 = E.getpid →
      (LogListener.onDataAvailable K E self name_set i).ret = false ∧
      logCalls (LogListener.onDataAvailable K E self name_set i).trace = []) ∧
    ((call_tidToPid E self.logbuf ((header_of K i).tid : Int)).1 ≠ E.getpid →
      (LogListener.onDataAvailable K E self name_set i).ret = true ∧
      (logCalls (LogListener.onDataAvailable K E self name_set i).trace).map
          LogCall.pid =
        if self.logbuf.isSome then
          [(call_tidToPid E self.logbuf ((header_of K i).tid : Int)).1]
        else []) := by
  have hgate := (security_gate_pass_iff K E (header_of K i).id (extract_cred K i)).mpr hsec
  by_cases hself : (call_tidToPid E self.logbuf ((header_of K i).tid : Int)).1 = E.getpid
  · have hrp : repair_pid E self.logbuf (header_of K i) (extract_cred K i) =
        (none, (call_tidToPid E self.logbuf ((header_of K i).tid : Int)).2) := by
      unfold repair_pid
      simp [hpid, hself]
    have hout : LogListener.onDataAvailable K E self name_set i =
        ⟨false, true, set_name name_set ++
          (security_gate K E (header_of K i).id (extract_cred K i)).2 ++
          (call_tidToPid E self.logbuf ((header_of K i).tid : Int)).2⟩ := by
      unfold LogListener.onDataAvailable
      simp [not_le.mpr hlen, huid, not_le.mpr hmax, hker, hgate, hrp]
    refine ⟨?_, fun _ => ?_, fun hne => absurd hself hne⟩
    · intro e he
      rw [hout]
      exact List.mem_append_right _ he
    · rw [hout]
      refine ⟨rfl, ?_⟩
      cases self.logbuf <;> simp [call_tidToPid, logCalls]
  · have hrp : repair_pid E self.logbuf (header_of K i) (extract_cred K i) =
        (some { extract_cred K i with
                pid := (call_tidToPid E self.logbuf ((header_of K i).tid : Int)).1 },
         (call_tidToPid E self.logbuf ((header_of K i).tid : Int)).2) := by
      unfold repair_pid
      simp [hpid, hself]
    have hp : Passes K E self i { extract_cred K i with
        pid := (call_tidToPid E self.logbuf ((header_of K i).tid : Int)).1 } :=
      ⟨hlen, huid, hmax, hker, hgate, by rw [hrp]⟩
    refine ⟨?_, fun h => absurd h hself, fun _ => ?_⟩
    · intro e he
      rw [onDataAvailable_of_passes K E self name_set i _ hp, hrp]
      simp only [List.mem_append]
      exact Or.inl (Or.inl (Or.inr he))
    · refine ⟨by rw [onDataAvailable_of_passes K E self name_set i _ hp], ?_⟩
      rw [logCalls_of_passes K E self name_set i _ hp]
      split_ifs
      · simp [log_call, repair_uid_pid]
      · rfl

/-! ## User-id repair without a storage backend (C6) -/

/-- C6, evaluated: credentials absent, header thread id 42, `tidToPid(42)` =
100 and `pidToUid(100)` = `AID_LOGD`.  Without a storage backend the retry of
line 125 asks `android::pidToUid` for process 100 a second time and never
for the thread id 42; with a backend the retry of line 124 asks for 42. -/
theorem uid_retry_without_logbuf :
    (header_of specPlatform (sample_input LOG_ID_MAIN [])).tid = 42 ∧
    lookups (LogListener.onDataAvailable specPlatform daemon_owned_env
      { logbuf := none, reader := none } false
      (sample_input LOG_ID_MAIN [])).trace =
      [Event.android_tidToPid 42, Event.android_pidToUid 100,
       Event.android_pidToUid 100] ∧
    lookups (LogListener.onDataAvailable specPlatform daemon_owned_env
      { logbuf := some daemon_owned_logbuf, reader := none } false
      (sample_input LOG_ID_MAIN [])).trace =
      [Event.logbuf_tidToPid 42, Event.logbuf_pidToUid 100,
       Event.logbuf_pidToUid 42] := by
  refine ⟨by decide, by decide, by decide⟩

/-! ## The group id of the fallback credential (C7) -/

/-- C7, evaluated: a SECURITY datagram without ancillary credentials, received
while the stack slot of `fake_cred` holds zeroes.  The credential used is
`pid 0, uid 65534, gid 0`: the group id is what the stack held, not
`DEFAULT_OVERFLOWUID`.  The authorization check is asked about group 0, and
with a check that admits group 0 the datagram is stored. -/
theorem fake_cred_gid_unset :
    extract_cred specPlatform (sample_input 5 []) = ⟨0, 65534, 0⟩ ∧
    Event.clientHasLogCredentials 65534 0 0 ∈
      (LogListener.onDataAvailable specPlatform root_group_env sample_listener
        false (sample_input 5 [])).trace ∧
    Event.clientHasLogCredentials 65534 65534 0 ∉
      (LogListener.onDataAvailable specPlatform root_group_env sample_listener
        false (sample_input 5 [])).trace ∧
    (LogListener.onDataAvailable specPlatform root_group_env sample_listener
      false (sample_input 5 [])).ret = true ∧
    (logCalls (LogListener.onDataAvailable specPlatform root_group_env
      sample_listener false (sample_input 5 [])).trace).length = 1 ∧
    root_group_env.clientHasLogCredentials 65534 65534 0 = false := by
  refine ⟨by decide, by decide, by decide, by decide, by decide, by decide⟩

/-! ## Credentials used verbatim (C8) -/

/-- C8: a datagram of `n` bytes, `n` above the header size and the payload
length `n - sizeof(android_log_header_t)` at most 65535, with header
`(c, t, ts)`, `c` a valid category other than SECURITY, and ancillary
credentials with `pid` non-zero and `uid` neither `AID_LOGD` nor the overflow
sentinel, handed to a listener with a storage backend: the method returns
true, `logbuf->log` is called exactly once, with `(c, ts, uid, pid, t, buffer
from offset header size, n - header size)`, and no lookup is made. -/
theorem verbatim_credentials (K : Platform) (E : Env) (self : LogListener)
    (name_set : Bool) (i : Input) (lb : LogBufferInterface) (cred : ucred)
    (c t : Nat) (ts : log_time)
    (hlen : (K.sizeof_android_log_header_t : Int) < i.n)
    (hshort : i.n - (K.sizeof_android_log_header_t : Int) ≤ 65535)
    (hhdr : header_of K i = { id := c, tid := t, realtime := ts })
    (hmax : c < K.LOG_ID_MAX) (hker : c ≠ K.LOG_ID_KERNEL)
    (hnsec : c ≠ K.LOG_ID_SECURITY)
    (hcred : find_cred i.control = some cred)
    (hpid : cred.pid ≠ 0) (huid : cred.uid ≠ K.AID_LOGD)
    (hovf : cred.uid ≠ K.DEFAULT_OVERFLOWUID)
    (hlb : self.logbuf = some lb) :
    (LogListener.onDataAvailable K E self name_set i).ret = true ∧
    logCalls (LogListener.onDataAvailable K E self name_set i).trace =
      [{ log_id := c, realtime := ts, uid := cred.uid, pid := cred.pid,
         tid := (t : Int),
         msg := (terminate i).drop K.sizeof_android_log_header_t,
         len := (i.n - (K.sizeof_android_log_header_t : Int)).toNat }] ∧
    (∀ e ∈ (LogListener.onDataAvailable K E self name_set i).trace,
      e.isLookup = false) := by
  have hx : extract_cred K i = cred := by simp [extract_cred, hcred]
  have hg := security_gate_of_ne K E c cred hnsec
  have hrp := repair_pid_of_ne E self.logbuf (header_of K i) cred hpid
  have hru := repair_uid_of_ne K E self.logbuf (header_of K i) cred hovf
  have hp : Passes K E self i cred := by
    refine ⟨hlen, by rw [hx]; exact huid, by rw [hhdr]; exact hmax,
      by rw [hhdr]; exact hker, ?_, ?_⟩
    · rw [hhdr, hx]; simp only [hg]
    · rw [hx, hrp]
  have hc : clamp_len (i.n - (K.sizeof_android_log_header_t : Int)) =
      (i.n - (K.sizeof_android_log_header_t : Int)).toNat := by
    have h := clamp_len_eq (i.n - (K.sizeof_android_log_header_t : Int))
      (by omega) (by norm_num; omega)
    omega
  refine ⟨by rw [onDataAvailable_of_passes K E self name_set i cred hp], ?_, ?_⟩
  · rw [logCalls_of_passes K E self name_set i cred hp, hru, hlb]
    simp [log_call, hhdr, hc]
  · rw [onDataAvailable_of_passes K E self name_set i cred hp, hx, hrp, hru, hhdr, hg]
    intro e he
    simp only [List.append_nil, List.mem_append] at he
    rcases he with he | he
    · exact isLookup_set_name _ e he
    · exact isLookup_dispatch _ _ e he

/-- Instance for C8 (scenario 1 of the spec): header `(MAIN, tid 42, ts)`, a
10-byte payload and credential `(100, 1000, 1000)` give the single call
`log(MAIN, ts, 1000, 100, 42, payload, 10)`. -/
theorem verbatim_credentials_witness :
    logCalls (LogListener.onDataAvailable specPlatform (sample_env true true)
      sample_listener false
      (sample_input LOG_ID_MAIN [cred_cmsg ⟨100, 1000, 1000⟩])).trace =
      [{ log_id := LOG_ID_MAIN, realtime := sample_ts, uid := 1000, pid := 100,
         tid := 42,
         msg := (terminate (sample_input LOG_ID_MAIN
                  [cred_cmsg ⟨100, 1000, 1000⟩])).drop 15,
         len := 10 }] ∧
    ((terminate (sample_input LOG_ID_MAIN
        [cred_cmsg ⟨100, 1000, 1000⟩])).drop 15).take 10 = sample_payload :=
  ⟨(verbatim_credentials specPlatform (sample_env true true) sample_listener false
      (sample_input LOG_ID_MAIN [cred_cmsg ⟨100, 1000, 1000⟩]) sample_logbuf
      ⟨100, 1000, 1000⟩ LOG_ID_MAIN 42 sample_ts
      (by decide) (by decide) (by decide) (by decide) (by decide) (by decide)
      (by decide) (by decide) (by decide) (by decide) rfl).2.1,
   by decide⟩

/-! ## Two-step resolution (C9) -/

/-- The notifications of the dispatch step with a backend: one, with the
mask of the category, when `log` returned a positive value and a reader is
configured. -/
theorem notifyCalls_dispatch (self : LogListener) (lb : LogBufferInterface)
    (call : LogCall) (hlb : self.logbuf = some lb) :
    notifyCalls (dispatch self call) =
      if 0 < lb.log call.log_id call.realtime call.uid call.pid call.tid
            call.msg call.len ∧ self.reader ≠ none then
        [log_mask_cast (1 <<< call.log_id)]
      else [] := by
  unfold dispatch
  rw [hlb]
  by_cases hr : 0 < lb.log call.log_id call.realtime call.uid call.pid call.tid
      call.msg call.len ∧ self.reader ≠ none
  · simp [hr, hr.1, hr.2, notifyCalls]
  · simp only [gt_iff_lt, if_neg hr]
    rfl

/-- Without a backend the dispatch step does nothing. -/
theorem dispatch_of_none (self : LogListener) (call : LogCall)
    (h : self.logbuf = none) : dispatch self call = [] := by
  unfold dispatch
  rw [h]

/-- For a category below 32 the mask `1 << logId` is the power of two. -/
theorem log_mask_of_lt (id : Nat) (h : id < 32) :
    log_mask_cast (1 <<< id) = 2 ^ id := by
  unfold log_mask_cast
  rw [Nat.one_shiftLeft]
  exact Nat.mod_eq_of_lt (Nat.pow_lt_pow_right (by norm_num) h)

/-- C11: when a datagram reaches storage (`call` is a call of `logbuf->log`
made by the method, `lb` the backend), `notifyNewLog` is called exactly when
`lb.log` returned a positive value and a reader is configured, and then once,
with the mask `2 ^ logId`, whose only set bit is at the position of the
category of the accepted record; without a backend `notifyNewLog` is never
called.  `LOG_ID_MAX` is assumed to be at most 31, so that `1 << logId` does
not overflow an `int`. -/
theorem notify_after_storage (K : Platform) (E : Env) (self : LogListener)
    (name_set : Bool) (i : Input) (hK : K.LOG_ID_MAX ≤ 31) :
    (∀ lb call, self.logbuf = some lb →
      call ∈ logCalls (LogListener.onDataAvailable K E self name_set i).trace →
      call.log_id = (header_of K i).id ∧ call.log_id < K.LOG_ID_MAX ∧
      notifyCalls (LogListener.onDataAvailable K E self name_set i).trace =
        (if 0 < lb.log call.log_id call.realtime call.uid call.pid call.tid
              call.msg call.len ∧ self.reader ≠ none then
          [2 ^ call.log_id]
        else []) ∧
      (∀ j, (2 ^ call.log_id).testBit j = decide (j = call.log_id))) ∧
    (self.logbuf = none →
      notifyCalls (LogListener.onDataAvailable K E self name_set i).trace = []) := by
  rcases rejected_or_passes K E self name_set i with ⟨_, hl, hn⟩ | ⟨cred1, hp⟩
  · refine ⟨fun lb call _ hc => ?_, fun _ => hn⟩
    rw [hl] at hc
    cases hc
  · refine ⟨fun lb call hlb hc => ?_, fun hnone => ?_⟩
    · rw [logCalls_of_passes K E self name_set i cred1 hp] at hc
      split_ifs at hc
      swap
      · cases hc
      rw [List.mem_singleton] at hc
      have hid : call.log_id = (header_of K i).id := by rw [hc]; rfl
      have hlt : call.log_id < K.LOG_ID_MAX := by rw [hid]; exact hp.2.2.1
      refine ⟨hid, hlt, ?_, ?_⟩
      · rw [notifyCalls_of_passes K E self name_set i cred1 hp, ← hc,
          notifyCalls_dispatch self lb call hlb, log_mask_of_lt call.log_id (by omega)]
      · intro j
        rw [Nat.testBit_two_pow]
        by_cases hj : j = call.log_id
        · simp [hj]
        · simp [hj, Ne.symm hj]
    · rw [notifyCalls_of_passes K E self name_set i cred1 hp,
        dispatch_of_none self _ hnone]
      rfl

/-- Instance for C11 (scenario 1 of the spec): the MAIN datagram with
credential `(100, 1000, 1000)` is stored by a backend that accepts it, and
the reader is notified once with the mask `1 << MAIN` = 1. -/
theorem notify_after_storage_witness :
    specPlatform.LOG_ID_MAX ≤ 31 ∧
    notifyCalls (LogListener.onDataAvailable specPlatform (sample_env true true)
      sample_listener false
      (sample_input LOG_ID_MAIN [cred_cmsg ⟨100, 1000, 1000⟩])).trace = [1] :=
  ⟨by decide,
   ((notify_after_storage specPlatform (sample_env true true) sample_listener
      false (sample_input LOG_ID_MAIN [cred_cmsg ⟨100, 1000, 1000⟩])
      (by decide)).1 sample_logbuf
      (log_call specPlatform
        (sample_input LOG_ID_MAIN [cred_cmsg ⟨100, 1000, 1000⟩]) ⟨100, 1000, 1000⟩)
      rfl (List.mem_singleton.mpr rfl)).2.2.1.trans (by decide)⟩

/-! ## Adoption of the resolved user id (C12) -/

/-- User-id repair of a credential with the overflow sentinel: the looked-up
value is adopted unless it is `AID_LOGD`. -/
theorem repair_uid_of_overflow (K : Platform) (E : Env)
    (logbuf : Option LogBufferInterface) (header : android_log_header_t)
    (cred : ucred) (h : cred.uid = K.DEFAULT_OVERFLOWUID) :
    (repair_uid K E logbuf header cred).1.uid =
      if lookup_uid K E logbuf header cred = K.AID_LOGD then K.DEFAULT_OVERFLOWUID
      else lookup_uid K E logbuf header cred := by
  unfold repair_uid lookup_uid
  simp only [h, if_true]
  by_cases h1 : (call_pidToUid E logbuf cred.pid).1 = K.AID_LOGD
  · simp only [h1, if_true]
    by_cases h2 : (retry_pidToUid E logbuf header cred).1 = K.AID_LOGD
    · simp [h2, h]
    · simp [h2]
  · simp [h1]

/-- C12, refuted as stated: without a storage backend, a datagram without
credentials reaches user-id repair with the overflow sentinel, the lookup
answers `AID_LOGD` also on the retry, the method returns true, and
`logbuf->log` is not called at all. -/
theorem uid_adoption_counterexample :
    Passes specPlatform daemon_owned_env { logbuf := none, reader := none }
      (sample_input LOG_ID_MAIN []) ⟨100, 65534, 0⟩ ∧
    (⟨100, 65534, 0⟩ : ucred).uid = specPlatform.DEFAULT_OVERFLOWUID ∧
    lookup_uid specPlatform daemon_owned_env none
      (header_of specPlatform (sample_input LOG_ID_MAIN [])) ⟨100, 65534, 0⟩
      = specPlatform.AID_LOGD ∧
    (LogListener.onDataAvailable specPlatform daemon_owned_env
      { logbuf := none, reader := none } false
      (sample_input LOG_ID_MAIN [])).ret = true ∧
    ¬ ∃ c ∈ logCalls (LogListener.onDataAvailable specPlatform daemon_owned_env
        { logbuf := none, reader := none } false
        (sample_input LOG_ID_MAIN [])).trace,
      c.uid = specPlatform.DEFAULT_OVERFLOWUID := by
  refine ⟨⟨by decide, by decide, by decide, by decide, by decide, by decide⟩,
    by decide, by decide, by decide, ?_⟩
  have h : logCalls (LogListener.onDataAvailable specPlatform daemon_owned_env
      { logbuf := none, reader := none } false
      (sample_input LOG_ID_MAIN [])).trace = [] := by decide
  rw [h]
  simp

/-- C12, amended: for a datagram that reaches user-id repair (`cred1` is the
credential after process-id repair) with the overflow sentinel as user id,
the looked-up user id (after the retry) is adopted exactly when it differs
from `AID_LOGD`, and otherwise the user id stays the overflow sentinel; the
method returns true in both cases, and when a storage backend is configured
`logbuf->log` is called once with that user id (without a backend it is not
called). -/
theorem uid_adoption (K : Platform) (E : Env) (self : LogListener)
    (name_set : Bool) (i : Input) (cred1 : ucred)
    (hp : Passes K E self i cred1)
    (hovf : cred1.uid = K.DEFAULT_OVERFLOWUID) :
    (LogListener.onDataAvailable K E self name_set i).ret = true ∧
    (repair_uid K E self.logbuf (header_of K i) cred1).1.uid =
      (if lookup_uid K E self.logbuf (header_of K i) cred1 = K.AID_LOGD then
        K.DEFAULT_OVERFLOWUID
      else lookup_uid K E self.logbuf (header_of K i) cred1) ∧
    (logCalls (LogListener.onDataAvailable K E self name_set i).trace).map
        LogCall.uid =
      (if self.logbuf.isSome then
        [if lookup_uid K E self.logbuf (header_of K i) cred1 = K.AID_LOGD then
          K.DEFAULT_OVERFLOWUID
        else lookup_uid K E self.logbuf (header_of K i) cred1]
      else []) := by
  have hu := repair_uid_of_overflow K E self.logbuf (header_of K i) cred1 hovf
  refine ⟨by rw [onDataAvailable_of_passes K E self name_set i cred1 hp], hu, ?_⟩
  rw [logCalls_of_passes K E self name_set i cred1 hp]
  split_ifs with h1 h2
  · simp [log_call, hu, h2]
  · simp [log_call, hu, h2]
  · rfl

/-- Instance for C12: credentials absent, thread 42 in process 100, and a
backend that answers `AID_LOGD` for every process id: the datagram is
accepted and stored with the overflow sentinel 65534 as user id. -/
theorem uid_adoption_witness :
    Passes specPlatform (sample_env true true)
      { logbuf := some all_daemon_logbuf, reader := some LogReader.mk }
      (sample_input LOG_ID_MAIN []) ⟨100, 65534, 0⟩ ∧
    (LogListener.onDataAvailable specPlatform (sample_env true true)
      { logbuf := some all_daemon_logbuf, reader := some LogReader.mk } false
      (sample_input LOG_ID_MAIN [])).ret = true ∧
    (logCalls (LogListener.onDataAvailable specPlatform (sample_env true true)
      { logbuf := some all_daemon_logbuf, reader := some LogReader.mk } false
      (sample_input LOG_ID_MAIN [])).trace).map LogCall.uid = [65534] :=
  ⟨⟨by decide, by decide, by decide, by decide, by decide, by decide⟩,
   (uid_adoption specPlatform (sample_env true true)
      { logbuf := some all_daemon_logbuf, reader := some LogReader.mk } false
      (sample_input LOG_ID_MAIN []) ⟨100, 65534, 0⟩
      ⟨by decide, by decide, by decide, by decide, by decide, by decide⟩
      (by decide)).1,
   (uid_adoption specPlatform (sample_env true true)
      { logbuf := some all_daemon_logbuf, reader := some LogReader.mk } false
      (sample_input LOG_ID_MAIN []) ⟨100, 65534, 0⟩
      ⟨by decide, by decide, by decide, by decide, by decide, by decide⟩
      (by decide)).2.2.trans (by decide)⟩

/-! ## The shape of a trace -/

/-- The trace of every invocation is the naming step followed by a prefix of
the steps SECURITY gate, process-id repair, user-id repair, dispatch. -/
theorem trace_shape (K : Platform) (E : Env) (self : LogListener)
    (name_set : Bool) (i : Input) :
    (LogListener.onDataAvailable K E self name_set i).trace = set_name name_set ∨
    (LogListener.onDataAvailable K E self name_set i).trace =
      set_name name_set ++
      (security_gate K E (header_of K i).id (extract_cred K i)).2 ∨
    (LogListener.onDataAvailable K E self name_set i).trace =
      set_name name_set ++
      (security_gate K E (header_of K i).id (extract_cred K i)).2 ++
      (repair_pid E self.logbuf (header_of K i) (extract_cred K i)).2 ∨
    ∃ cred1,
      (LogListener.onDataAvailable K E self name_set i).trace =
        set_name name_set ++
        (security_gate K E (header_of K i).id (extract_cred K i)).2 ++
        (repair_pid E self.logbuf (header_of K i) (extract_cred K i)).2 ++
        (repair_uid K E self.logbuf (header_of K i) cred1).2 ++
        dispatch self
          (log_call K i (repair_uid K E self.logbuf (header_of K i) cred1).1) := by
  unfold LogListener.onDataAvailable
  simp only []
  split_ifs
  · exact Or.inl rfl
  · exact Or.inl rfl
  · exact Or.inl rfl
  · exact Or.inr (Or.inl rfl)
  · split
    · exact Or.inr (Or.inr (Or.inl rfl))
    · exact Or.inr (Or.inr (Or.inr ⟨_, rfl⟩))

/-- The flag `name_set` is true after every invocation. -/
theorem name_set_after (K : Platform) (E : Env) (self : LogListener)
    (name_set : Bool) (i : Input) :
    (LogListener.onDataAvailable K E self name_set i).name_set = true := by
  unfold LogListener.onDataAvailable
  simp only []
  split_ifs <;> try rfl
  split <;> rfl

/-- A datagram that fails one of the checks before process-id repair is
rejected with the naming step and at most the SECURITY gate in its trace. -/
theorem early_reject (K : Platform) (E : Env) (self : LogListener)
    (name_set : Bool) (i : Input)
    (h : ¬ ((K.sizeof_android_log_header_t : Int) < i.n ∧
      (extract_cred K i).uid ≠ K.AID_LOGD ∧
      (header_of K i).id < K.LOG_ID_MAX ∧
      (header_of K i).id ≠ K.LOG_ID_KERNEL ∧
      (security_gate K E (header_of K i).id (extract_cred K i)).1 = true)) :
    (LogListener.onDataAvailable K E self name_set i).ret = false ∧
    ((LogListener.onDataAvailable K E self name_set i).trace = set_name name_set ∨
     (LogListener.onDataAvailable K E self name_set i).trace =
      set_name name_set ++
      (security_gate K E (header_of K i).id (extract_cred K i)).2) := by
  by_cases h1 : (K.sizeof_android_log_header_t : Int) < i.n
  swap
  · unfold LogListener.onDataAvailable; simp [not_lt.mp h1]
  by_cases h2 : (extract_cred K i).uid = K.AID_LOGD
  · unfold LogListener.onDataAvailable; simp [not_le.mpr h1, h2]
  by_cases h3 : (header_of K i).id < K.LOG_ID_MAX
  swap
  · unfold LogListener.onDataAvailable; simp [not_le.mpr h1, h2, not_lt.mp h3]
  by_cases h4 : (header_of K i).id = K.LOG_ID_KERNEL
  · unfold LogListener.onDataAvailable; simp [not_le.mpr h1, h2, h4]
  by_cases h5 : (security_gate K E (header_of K i).id (extract_cred K i)).1 = true
  · exact absurd ⟨h1, h2, h3, h4, h5⟩ h
  · simp only [Bool.not_eq_true] at h5
    unfold LogListener.onDataAvailable
    simp [not_le.mpr h1, h2, not_le.mpr h3, h4, h5]

/-- A datagram from the daemon's own user id, or too short, leaves only the
naming step in the trace. -/
theorem trace_of_first_checks (K : Platform) (E : Env) (self : LogListener)
    (name_set : Bool) (i : Input)
    (h : i.n ≤ (K.sizeof_android_log_header_t : Int) ∨
      (extract_cred K i).uid = K.AID_LOGD) :
    LogListener.onDataAvailable K E self name_set i =
      ⟨false, true, set_name name_set⟩ := by
  unfold LogListener.onDataAvailable
  rcases h with h | h
  · simp [h]
  · by_cases h1 : i.n ≤ (K.sizeof_android_log_header_t : Int) <;> simp [h1, h]

/-- A datagram that passes the checks before process-id repair, has `pid` 0
and a thread that belongs to the daemon is rejected right after the call of
`tidToPid`. -/
theorem onDataAvailable_of_self_pid (K : Platform) (E : Env) (self : LogListener)
    (name_set : Bool) (i : Input)
    (h1 : (K.sizeof_android_log_header_t : Int) < i.n)
    (h2 : (extract_cred K i).uid ≠ K.AID_LOGD)
    (h3 : (header_of K i).id < K.LOG_ID_MAX)
    (h4 : (header_of K i).id ≠ K.LOG_ID_KERNEL)
    (h5 : (security_gate K E (header_of K i).id (extract_cred K i)).1 = true)
    (hpid : (extract_cred K i).pid = 0)
    (hself : (call_tidToPid E self.logbuf ((header_of K i).tid : Int)).1 = E.getpid) :
    LogListener.onDataAvailable K E self name_set i =
      ⟨false, true, set_name name_set ++
        (security_gate K E (header_of K i).id (extract_cred K i)).2 ++
        (call_tidToPid E self.logbuf ((header_of K i).tid : Int)).2⟩ := by
  have hrp : repair_pid E self.logbuf (header_of K i) (extract_cred K i) =
      (none, (call_tidToPid E self.logbuf ((header_of K i).tid : Int)).2) := by
    unfold repair_pid
    simp [hpid, hself]
  unfold LogListener.onDataAvailable
  simp [not_le.mpr h1, h2, not_le.mpr h3, h4, h5, hrp]

/-- The SECURITY gate makes no lookup. -/
theorem isLookup_security_gate (K : Platform) (E : Env) (logId : Nat)
    (cred : ucred) : ∀ e ∈ (security_gate K E logId cred).2, e.isLookup = false := by
  have h : (security_gate K E logId cred).2.filter Event.isLookup = [] := by
    unfold security_gate
    split_ifs <;> rfl
  intro e he
  have := List.filter_eq_nil_iff.mp h e he
  simpa using this

/-- The naming step consults no SECURITY policy. -/
theorem isSecurityQuery_set_name (b : Bool) :
    ∀ e ∈ set_name b, e.isSecurityQuery = false := by
  cases b <;> simp [set_name, Event.isSecurityQuery]

/-- A call of `pidToUid` is a lookup. -/
theorem isPidToUid_le_isLookup (e : Event) (h : e.isLookup = false) :
    e.isPidToUid = false := by
  cases e <;> simp [Event.isLookup] at h <;> rfl

/-- The call of `tidToPid` is not a call of `pidToUid`. -/
theorem isPidToUid_call_tidToPid (E : Env) (logbuf : Option LogBufferInterface)
    (tid : Int) : ∀ e ∈ (call_tidToPid E logbuf tid).2, e.isPidToUid = false := by
  unfold call_tidToPid
  cases logbuf <;> simp [Event.isPidToUid]

/-! ## Order of the checks (C13) -/

/-- C13: (1) a datagram rejected by the length check, by self-suppression, by
the category check or by the SECURITY policy is rejected without any call of
`tidToPid` or `pidToUid`; (2) a datagram rejected by self-suppression is
rejected without consulting `__android_log_security()` or
`clientHasLogCredentials`; (3) a datagram with `pid` 0 whose thread resolves
to the daemon's own process is rejected without any call of `pidToUid`. -/
theorem short_circuit_order (K : Platform) (E : Env) (self : LogListener)
    (name_set : Bool) (i : Input) :
    ((i.n ≤ (K.sizeof_android_log_header_t : Int) ∨
        (extract_cred K i).uid = K.AID_LOGD ∨
        K.LOG_ID_MAX ≤ (header_of K i).id ∨
        (header_of K i).id = K.LOG_ID_KERNEL ∨
        ((header_of K i).id = K.LOG_ID_SECURITY ∧
          (E.android_log_security = false ∨
           E.clientHasLogCredentials (extract_cred K i).uid (extract_cred K i).gid
            (extract_cred K i).pid = false))) →
      (LogListener.onDataAvailable K E self name_set i).ret = false ∧
      lookups (LogListener.onDataAvailable K E self name_set i).trace = []) ∧
    ((extract_cred K i).uid = K.AID_LOGD →
      (LogListener.onDataAvailable K E self name_set i).ret = false ∧
      ∀ e ∈ (LogListener.onDataAvailable K E self name_set i).trace,
        e.isSecurityQuery = false) ∧
    (((extract_cred K i).pid = 0 ∧
        (call_tidToPid E self.logbuf ((header_of K i).tid : Int)).1 = E.getpid) →
      (LogListener.onDataAvailable K E self name_set i).ret = false ∧
      ∀ e ∈ (LogListener.onDataAvailable K E self name_set i).trace,
        e.isPidToUid = false) := by
  have hearly : ¬ ((K.sizeof_android_log_header_t : Int) < i.n ∧
      (extract_cred K i).uid ≠ K.AID_LOGD ∧
      (header_of K i).id < K.LOG_ID_MAX ∧
      (header_of K i).id ≠ K.LOG_ID_KERNEL ∧
      (security_gate K E (header_of K i).id (extract_cred K i)).1 = true) →
      (LogListener.onDataAvailable K E self name_set i).ret = false ∧
      ∀ e ∈ (LogListener.onDataAvailable K E self name_set i).trace,
        e.isLookup = false := by
    intro h
    obtain ⟨hr, ht⟩ := early_reject K E self name_set i h
    refine ⟨hr, fun e he => ?_⟩
    rcases ht with ht | ht <;> rw [ht] at he
    · exact isLookup_set_name _ e he
    · rcases List.mem_append.mp he with he | he
      · exact isLookup_set_name _ e he
      · exact isLookup_security_gate _ _ _ _ e he
  refine ⟨fun h => ?_, fun h => ?_, fun h => ?_⟩
  · have hnot : ¬ ((K.sizeof_android_log_header_t : Int) < i.n ∧
        (extract_cred K i).uid ≠ K.AID_LOGD ∧
        (header_of K i).id < K.LOG_ID_MAX ∧
        (header_of K i).id ≠ K.LOG_ID_KERNEL ∧
        (security_gate K E (header_of K i).id (extract_cred K i)).1 = true) := by
      rintro ⟨h1, h2, h3, h4, h5⟩
      rcases h with h | h | h | h | ⟨hs, h⟩
      · exact absurd h1 (not_lt.mpr h)
      · exact h2 h
      · exact absurd h3 (not_lt.mpr h)
      · exact h4 h
      · have hb := (security_gate_pass_iff K E _ _).mp h5 hs
        rcases h with h | h
        · rw [hb.1] at h; cases h
        · rw [hb.2] at h; cases h
    obtain ⟨hr, hl⟩ := hearly hnot
    refine ⟨hr, ?_⟩
    unfold lookups
    rw [List.filter_eq_nil_iff]
    intro e he
    simp [hl e he]
  · rw [trace_of_first_checks K E self name_set i (Or.inr h)]
    exact ⟨rfl, isSecurityQuery_set_name _⟩
  · obtain ⟨hpid, hself⟩ := h
    by_cases hc : (K.sizeof_android_log_header_t : Int) < i.n ∧
        (extract_cred K i).uid ≠ K.AID_LOGD ∧
        (header_of K i).id < K.LOG_ID_MAX ∧
        (header_of K i).id ≠ K.LOG_ID_KERNEL ∧
        (security_gate K E (header_of K i).id (extract_cred K i)).1 = true
    · obtain ⟨h1, h2, h3, h4, h5⟩ := hc
      rw [onDataAvailable_of_self_pid K E self name_set i h1 h2 h3 h4 h5 hpid hself]
      refine ⟨rfl, fun e he => ?_⟩
      simp only [List.mem_append] at he
      rcases he with (he | he) | he
      · exact isPidToUid_le_isLookup e (isLookup_set_name _ e he)
      · exact isPidToUid_le_isLookup e (isLookup_security_gate _ _ _ _ e he)
      · exact isPidToUid_call_tidToPid _ _ _ e he
    · obtain ⟨hr, hl⟩ := hearly hc
      exact ⟨hr, fun e he => isPidToUid_le_isLookup e (hl e he)⟩

/-! ## The naming flag (C14) -/

@[simp] theorem namingCalls_append (a b : List Event) :
    namingCalls (a ++ b) = namingCalls a ++ namingCalls b := by
  induction a with
  | nil => rfl
  | cons e rest ih => cases e <;> simp [namingCalls, ih]

@[simp] theorem namingCalls_security_gate (K : Platform) (E : Env) (logId : Nat)
    (cred : ucred) : namingCalls (security_gate K E logId cred).2 = [] := by
  unfold security_gate
  split_ifs <;> rfl

@[simp] theorem namingCalls_repair_pid (E : Env) (logbuf : Option LogBufferInterface)
    (header : android_log_header_t) (cred : ucred) :
    namingCalls (repair_pid E logbuf header cred).2 = [] := by
  unfold repair_pid call_tidToPid
  cases logbuf <;> simp only [] <;> split_ifs <;> rfl

@[simp] theorem namingCalls_repair_uid (K : Platform) (E : Env)
    (logbuf : Option LogBufferInterface) (header : android_log_header_t)
    (cred : ucred) : namingCalls (repair_uid K E logbuf header cred).2 = [] := by
  unfold repair_uid call_pidToUid retry_pidToUid
  cases logbuf <;> simp only [] <;> split_ifs <;> rfl

@[simp] theorem namingCalls_dispatch (self : LogListener) (call : LogCall) :
    namingCalls (dispatch self call) = [] := by
  unfold dispatch
  cases self.logbuf with
  | none => rfl
  | some lb => simp only []; split_ifs <;> rfl

/-- The value of `name_set` on entry shows in the outcome only as the naming
step at the head of the trace. -/
theorem outcome_of_name_set (K : Platform) (E : Env) (self : LogListener)
    (name_set : Bool) (i : Input) :
    LogListener.onDataAvailable K E self name_set i =
      ⟨(LogListener.onDataAvailable K E self true i).ret, true,
       set_name name_set ++ (LogListener.onDataAvailable K E self true i).trace⟩ := by
  unfold LogListener.onDataAvailable
  simp only []
  split_ifs <;> try simp [set_name]
  split <;> simp [set_name]

/-- C14: the return value and the calls of `logbuf->log` and of
`notifyNewLog` are the same whether `name_set` is false or true on entry; the
trace with the flag false is the trace with the flag true preceded by the one
call `prctl(PR_SET_NAME, "logd.writer")`, and with the flag true no naming
call is made; the flag is true after every invocation. -/
theorem naming_flag_cosmetic (K : Platform) (E : Env) (self : LogListener)
    (i : Input) :
    (LogListener.onDataAvailable K E self false i).ret =
      (LogListener.onDataAvailable K E self true i).ret ∧
    logCalls (LogListener.onDataAvailable K E self false i).trace =
      logCalls (LogListener.onDataAvailable K E self true i).trace ∧
    notifyCalls (LogListener.onDataAvailable K E self false i).trace =
      notifyCalls (LogListener.onDataAvailable K E self true i).trace ∧
    (LogListener.onDataAvailable K E self false i).trace =
      Event.prctl_set_name "logd.writer" ::
        (LogListener.onDataAvailable K E self true i).trace ∧
    namingCalls (LogListener.onDataAvailable K E self false i).trace =
      ["logd.writer"] ∧
    namingCalls (LogListener.onDataAvailable K E self true i).trace = [] ∧
    (∀ b, (LogListener.onDataAvailable K E self b i).name_set = true) := by
  have hfalse := outcome_of_name_set K E self false i
  have hnone : namingCalls (LogListener.onDataAvailable K E self true i).trace = [] := by
    rcases trace_shape K E self true i with h | h | h | ⟨cred1, h⟩ <;>
      rw [h] <;> simp [set_name, namingCalls]
  refine ⟨?_, ?_, ?_, ?_, ?_, hnone, fun b => name_set_after K E self b i⟩
  · rw [hfalse]
  · rw [hfalse]; simp [set_name, logCalls]
  · rw [hfalse]; simp [set_name, notifyCalls]
  · rw [hfalse]; simp [set_name]
  · rw [hfalse]; simp [set_name, namingCalls, hnone]

/-! ## Bounds of the receive buffer (C15) -/

/-- The length expression of line 139 never exceeds a non-negative `n`. -/
theorem clamp_len_le (n : Int) (h0 : 0 ≤ n) : (clamp_len n : Int) ≤ n := by
  have e64 : (2 : Int) ^ 64 = 18446744073709551616 := by norm_num
  have e16 : (2 : Int) ^ 16 = 65536 := by norm_num
  unfold clamp_len size_t_cast unsigned_short_cast USHRT_MAX
  rw [e64, e16]
  split_ifs with h <;> omega

/-- C15: when `recvmsg` returns at most the iovec length `sizeof(buffer) - 1`
and `sizeof(android_log_header_t)` is `sizeof_log_id_t + sizeof(uint16_t) +
sizeof(log_time)`, then the iovec length is header size plus
`LOGGER_ENTRY_MAX_PAYLOAD`, `n` is at most that, the index `n` of the
terminator write of line 67 is inside `buffer` (the write leaves the length
of the buffer unchanged and puts 0 at index `n`), and the length handed to
`logbuf->log` is at most `LOGGER_ENTRY_MAX_PAYLOAD`. -/
theorem buffer_bounds (K : Platform) (E : Env) (self : LogListener)
    (name_set : Bool) (i : Input)
    (hrecv : i.n ≤ (iov_len K : Int))
    (hhdr : K.sizeof_android_log_header_t =
      K.sizeof_log_id_t + 2 + K.sizeof_log_time) :
    iov_len K = K.sizeof_android_log_header_t + K.LOGGER_ENTRY_MAX_PAYLOAD ∧
    i.n ≤ ((K.sizeof_android_log_header_t + K.LOGGER_ENTRY_MAX_PAYLOAD : Nat) : Int) ∧
    i.n < (sizeof_buffer K : Int) ∧
    ((K.sizeof_android_log_header_t : Int) < i.n →
      i.buffer.length = sizeof_buffer K →
      i.n.toNat < i.buffer.length ∧
      (terminate i).length = sizeof_buffer K ∧
      (terminate i)[i.n.toNat]? = some 0) ∧
    (∀ c ∈ logCalls (LogListener.onDataAvailable K E self name_set i).trace,
      c.len ≤ K.LOGGER_ENTRY_MAX_PAYLOAD) := by
  have hiov : iov_len K = K.sizeof_android_log_header_t + K.LOGGER_ENTRY_MAX_PAYLOAD := by
    unfold iov_len sizeof_buffer
    omega
  have hsz : sizeof_buffer K = iov_len K + 1 := by
    unfold iov_len sizeof_buffer
    omega
  refine ⟨hiov, by rw [← hiov]; exact hrecv, by rw [hsz]; push_cast; omega, ?_, ?_⟩
  · intro hlen hbuf
    have hidx : i.n.toNat < i.buffer.length := by rw [hbuf, hsz]; omega
    refine ⟨hidx, ?_, ?_⟩
    · unfold terminate
      rw [List.length_set, hbuf]
    · unfold terminate
      simp [List.getElem?_set_self, hidx]
  · rcases rejected_or_passes K E self name_set i with ⟨_, hl, _⟩ | ⟨cred1, hp⟩
    · rw [hl]
      intro c hc
      cases hc
    · rw [logCalls_of_passes K E self name_set i cred1 hp]
      intro c hc
      split_ifs at hc
      swap
      · cases hc
      rw [List.mem_singleton] at hc
      have hl : c.len = clamp_len (i.n - (K.sizeof_android_log_header_t : Int)) := by
        rw [hc]; rfl
      have hlen := hp.1
      have hle := clamp_len_le (i.n - (K.sizeof_android_log_header_t : Int)) (by omega)
      rw [hl]
      rw [hiov] at hrecv
      push_cast at hrecv
      omega

/-- Instance for C15: the 25-byte datagram in the 4084-byte buffer of the
platform with a 15-byte header and `LOGGER_ENTRY_MAX_PAYLOAD` = 4068. -/
theorem buffer_bounds_witness :
    (sample_input LOG_ID_MAIN [cred_cmsg ⟨100, 1000, 1000⟩]).n
      ≤ (iov_len specPlatform : Int) ∧
    specPlatform.sizeof_android_log_header_t =
      specPlatform.sizeof_log_id_t + 2 + specPlatform.sizeof_log_time ∧
    iov_len specPlatform = 4083 ∧
    (∀ c ∈ logCalls (LogListener.onDataAvailable specPlatform (sample_env true true)
        sample_listener false
        (sample_input LOG_ID_MAIN [cred_cmsg ⟨100, 1000, 1000⟩])).trace,
      c.len ≤ specPlatform.LOGGER_ENTRY_MAX_PAYLOAD) :=
  ⟨by decide, by decide, by decide,
   (buffer_bounds specPlatform (sample_env true true) sample_listener false
     (sample_input LOG_ID_MAIN [cred_cmsg ⟨100, 1000, 1000⟩])
     (by decide) (by decide)).2.2.2.2⟩

/-! ## Identity carried by a storage call (C16) -/

/-- Process-id repair never touches the user id. -/
theorem repair_pid_uid (E : Env) (logbuf : Option LogBufferInterface)
    (header : android_log_header_t) (cred cred1 : ucred)
    (h : (repair_pid E logbuf header cred).1 = some cred1) :
    cred1.uid = cred.uid := by
  unfold repair_pid at h
  by_cases h0 : cred.pid = 0
  · rw [if_pos h0] at h
    by_cases hs : (call_tidToPid E logbuf (header.tid : Int)).1 = E.getpid
    · simp [hs] at h
    · simp only [hs, if_false, Option.some.injEq] at h
      rw [← h]
  · rw [if_neg h0] at h
    simp only [Option.some.injEq] at h
    rw [h]

/-- A process id repaired from 0 is not the daemon's own. -/
theorem repair_pid_ne_getpid (E : Env) (logbuf : Option LogBufferInterface)
    (header : android_log_header_t) (cred cred1 : ucred)
    (h0 : cred.pid = 0)
    (h : (repair_pid E logbuf header cred).1 = some cred1) :
    cred1.pid ≠ E.getpid := by
  unfold repair_pid at h
  rw [if_pos h0] at h
  by_cases hs : (call_tidToPid E logbuf (header.tid : Int)).1 = E.getpid
  · simp [hs] at h
  · simp only [hs, if_false, Option.some.injEq] at h
    rw [← h]
    exact hs

/-- C16: every call of `logbuf->log` made by the method carries a user id
different from `AID_LOGD`, whatever the credentials and the lookups are; and
when the credential had `pid` 0 (supplied so, or absent) the call carries a
process id different from `getpid()`. -/
theorem storage_call_identity (K : Platform) (E : Env) (self : LogListener)
    (name_set : Bool) (i : Input) :
    ∀ c ∈ logCalls (LogListener.onDataAvailable K E self name_set i).trace,
      c.uid ≠ K.AID_LOGD ∧ ((extract_cred K i).pid = 0 → c.pid ≠ E.getpid) := by
  rcases rejected_or_passes K E self name_set i with ⟨_, hl, _⟩ | ⟨cred1, hp⟩
  · rw [hl]
    intro c hc
    cases hc
  · rw [logCalls_of_passes K E self name_set i cred1 hp]
    intro c hc
    split_ifs at hc
    swap
    · cases hc
    rw [List.mem_singleton] at hc
    obtain ⟨_, huid, _, _, _, hrp⟩ := hp
    have hu1 : cred1.uid ≠ K.AID_LOGD := by
      rw [repair_pid_uid E self.logbuf (header_of K i) _ cred1 hrp]
      exact huid
    have hcu : c.uid = (repair_uid K E self.logbuf (header_of K i) cred1).1.uid := by
      rw [hc]; rfl
    have hcp : c.pid = cred1.pid := by
      rw [hc]
      exact repair_uid_pid K E self.logbuf (header_of K i) cred1
    refine ⟨?_, fun h0 => ?_⟩
    · rw [hcu]
      by_cases hov : cred1.uid = K.DEFAULT_OVERFLOWUID
      · rw [repair_uid_of_overflow K E self.logbuf (header_of K i) cred1 hov]
        split_ifs with hl
        · rw [← hov]; exact hu1
        · exact hl
      · rw [repair_uid_of_ne K E self.logbuf (header_of K i) cred1 hov]
        exact hu1
    · rw [hcp]
      exact repair_pid_ne_getpid E self.logbuf (header_of K i) _ cred1 h0 hrp

/-- Instance for C16: the datagram without credentials (so `pid` 0), thread
42 in process 100 owned by user 1000, the daemon being process 7 and user
1036: the one storage call carries uid 1000 and pid 100. -/
theorem storage_call_identity_witness :
    log_call specPlatform (sample_input LOG_ID_MAIN []) ⟨100, 1000, 0⟩ ∈
      logCalls (LogListener.onDataAvailable specPlatform (sample_env true true)
        sample_listener false (sample_input LOG_ID_MAIN [])).trace ∧
    (log_call specPlatform (sample_input LOG_ID_MAIN []) ⟨100, 1000, 0⟩).uid
      ≠ specPlatform.AID_LOGD ∧
    ((extract_cred specPlatform (sample_input LOG_ID_MAIN [])).pid = 0 →
      (log_call specPlatform (sample_input LOG_ID_MAIN []) ⟨100, 1000, 0⟩).pid
        ≠ (sample_env true true).getpid) :=
  ⟨List.mem_singleton.mpr rfl,
   storage_call_identity specPlatform (sample_env true true) sample_listener false
     (sample_input LOG_ID_MAIN [])
     (log_call specPlatform (sample_input LOG_ID_MAIN []) ⟨100, 1000, 0⟩)
     (List.mem_singleton.mpr rfl)⟩

/-! ## The return value (C17) -/

/-- Process-id repair goes on exactly when the process id is known or the
looked-up process id is not the daemon's own. -/
theorem repair_pid_isSome_iff (E : Env) (logbuf : Option LogBufferInterface)
    (header : android_log_header_t) (cred : ucred) :
    (∃ cred1, (repair_pid E logbuf header cred).1 = some cred1) ↔
      (cred.pid = 0 → (call_tidToPid E logbuf (header.tid : Int)).1 ≠ E.getpid) := by
  unfold repair_pid
  by_cases h0 : cred.pid = 0
  · rw [if_pos h0]
    by_cases hs : (call_tidToPid E logbuf (header.tid : Int)).1 = E.getpid
    · simp [hs, h0]
    · simp [hs]
  · simp [h0]

/-- The method returns true exactly when the datagram passes the length
check, self-suppression, the category check, the SECURITY policy and the
self-pid check. -/
theorem ret_true_iff (K : Platform) (E : Env) (self : LogListener)
    (name_set : Bool) (i : Input) :
    (LogListener.onDataAvailable K E self name_set i).ret = true ↔
      ((K.sizeof_android_log_header_t : Int) < i.n ∧
       (extract_cred K i).uid ≠ K.AID_LOGD ∧
       (header_of K i).id < K.LOG_ID_MAX ∧
       (header_of K i).id ≠ K.LOG_ID_KERNEL ∧
       ((header_of K i).id = K.LOG_ID_SECURITY →
         E.android_log_security = true ∧
         E.clientHasLogCredentials (extract_cred K i).uid (extract_cred K i).gid
           (extract_cred K i).pid = true) ∧
       ((extract_cred K i).pid = 0 →
         (call_tidToPid E self.logbuf ((header_of K i).tid : Int)).1 ≠ E.getpid)) := by
  constructor
  · intro hret
    rcases rejected_or_passes K E self name_set i with ⟨hr, _, _⟩ | ⟨cred1, hp⟩
    · rw [hr] at hret
      cases hret
    · obtain ⟨h1, h2, h3, h4, h5, h6⟩ := hp
      exact ⟨h1, h2, h3, h4, (security_gate_pass_iff K E _ _).mp h5,
        (repair_pid_isSome_iff E self.logbuf _ _).mp ⟨cred1, h6⟩⟩
  · rintro ⟨h1, h2, h3, h4, h5, h6⟩
    obtain ⟨cred1, hc⟩ := (repair_pid_isSome_iff E self.logbuf _ _).mpr h6
    rw [onDataAvailable_of_passes K E self name_set i cred1
      ⟨h1, h2, h3, h4, (security_gate_pass_iff K E _ _).mpr h5, hc⟩]

/-- C17, refuted as stated: the same datagram (no credentials, thread 42) is
rejected by a listener whose storage backend maps thread 42 to the daemon's
process, and accepted by a listener without storage backend, for which
`android::tidToPid` maps thread 42 to process 100: the return value depends
on whether a storage backend is configured. -/
theorem return_value_counterexample :
    (LogListener.onDataAvailable specPlatform (sample_env true true)
      { logbuf := some stale_logbuf, reader := some LogReader.mk } false
      (sample_input LOG_ID_MAIN [])).ret = false ∧
    (LogListener.onDataAvailable specPlatform (sample_env true true)
      { logbuf := none, reader := some LogReader.mk } false
      (sample_input LOG_ID_MAIN [])).ret = true := by
  refine ⟨by decide, by decide⟩

/-- C17, amended: the method returns true exactly when the datagram passes
the length check, self-suppression, the category check, the SECURITY policy
and the self-pid check; and two listeners, whatever their storage backends
(present or not, whatever `log` returns) and readers are, return the same
value, provided that, when the credential has `pid` 0, their `tidToPid`
lookups agree on whether the header's thread belongs to the daemon. -/
theorem return_value_iff (K : Platform) (E : Env) (self self2 : LogListener)
    (name_set name_set2 : Bool) (i : Input)
    (hagree : (extract_cred K i).pid = 0 →
      ((call_tidToPid E self2.logbuf ((header_of K i).tid : Int)).1 = E.getpid ↔
       (call_tidToPid E self.logbuf ((header_of K i).tid : Int)).1 = E.getpid)) :
    ((LogListener.onDataAvailable K E self name_set i).ret = true ↔
      ((K.sizeof_android_log_header_t : Int) < i.n ∧
       (extract_cred K i).uid ≠ K.AID_LOGD ∧
       (header_of K i).id < K.LOG_ID_MAX ∧
       (header_of K i).id ≠ K.LOG_ID_KERNEL ∧
       ((header_of K i).id = K.LOG_ID_SECURITY →
         E.android_log_security = true ∧
         E.clientHasLogCredentials (extract_cred K i).uid (extract_cred K i).gid
           (extract_cred K i).pid = true) ∧
       ((extract_cred K i).pid = 0 →
         (call_tidToPid E self.logbuf ((header_of K i).tid : Int)).1 ≠ E.getpid))) ∧
    (LogListener.onDataAvailable K E self2 name_set2 i).ret =
      (LogListener.onDataAvailable K E self name_set i).ret := by
  refine ⟨ret_true_iff K E self name_set i, ?_⟩
  have h1 := ret_true_iff K E self name_set i
  have h2 := ret_true_iff K E self2 name_set2 i
  have hiff : (LogListener.onDataAvailable K E self2 name_set2 i).ret = true ↔
      (LogListener.onDataAvailable K E self name_set i).ret = true := by
    rw [h1, h2]
    constructor
    · rintro ⟨a, b, c, d, e, f⟩
      exact ⟨a, b, c, d, e, fun h0 hs => f h0 ((hagree h0).mpr hs)⟩
    · rintro ⟨a, b, c, d, e, f⟩
      exact ⟨a, b, c, d, e, fun h0 hs => f h0 ((hagree h0).mp hs)⟩
  cases hr2 : (LogListener.onDataAvailable K E self2 name_set2 i).ret <;>
    cases hr1 : (LogListener.onDataAvailable K E self name_set i).ret <;>
    simp [hr1, hr2] at hiff ⊢

/-- Instance for C17: a listener with backend and reader and a listener with
neither, whose lookups both map thread 42 to process 100, accept the same
datagram without credentials. -/
theorem return_value_iff_witness :
    (LogListener.onDataAvailable specPlatform (sample_env true true)
      { logbuf := none, reader := none } true (sample_input LOG_ID_MAIN [])).ret =
    (LogListener.onDataAvailable specPlatform (sample_env true true)
      sample_listener false (sample_input LOG_ID_MAIN [])).ret ∧
    (LogListener.onDataAvailable specPlatform (sample_env true true)
      sample_listener false (sample_input LOG_ID_MAIN [])).ret = true :=
  ⟨(return_value_iff specPlatform (sample_env true true) sample_listener
      { logbuf := none, reader := none } false true (sample_input LOG_ID_MAIN [])
      (by decide)).2,
   by decide⟩

/-! ## The credential shown to the authorization check (C18) -/

@[simp] theorem credentialChecks_append (a b : List Event) :
    credentialChecks (a ++ b) = credentialChecks a ++ credentialChecks b := by
  induction a with
  | nil => rfl
  | cons e rest ih => cases e <;> simp [credentialChecks, ih]

@[simp] theorem credentialChecks_set_name (b : Bool) :
    credentialChecks (set_name b) = [] := by
  cases b <;> rfl

@[simp] theorem credentialChecks_repair_pid (E : Env)
    (logbuf : Option LogBufferInterface) (header : android_log_header_t)
    (cred : ucred) : credentialChecks (repair_pid E logbuf header cred).2 = [] := by
  unfold repair_pid call_tidToPid
  cases logbuf <;> simp only [] <;> split_ifs <;> rfl

@[simp] theorem credentialChecks_repair_uid (K : Platform) (E : Env)
    (logbuf : Option LogBufferInterface) (header : android_log_header_t)
    (cred : ucred) : credentialChecks (repair_uid K E logbuf header cred).2 = [] := by
  unfold repair_uid call_pidToUid retry_pidToUid
  cases logbuf <;> simp only [] <;> split_ifs <;> rfl

@[simp] theorem credentialChecks_dispatch (self : LogListener) (call : LogCall) :
    credentialChecks (dispatch self call) = [] := by
  unfold dispatch
  cases self.logbuf with
  | none => rfl
  | some lb => simp only []; split_ifs <;> rfl

/-- The SECURITY gate asks the authorization check about the credential it is
given, at most once. -/
theorem credentialChecks_security_gate (K : Platform) (E : Env) (logId : Nat)
    (cred : ucred) :
    credentialChecks (security_gate K E logId cred).2 = [] ∨
    credentialChecks (security_gate K E logId cred).2 = [cred] := by
  unfold security_gate
  split_ifs
  · exact Or.inl rfl
  · exact Or.inr rfl
  · exact Or.inr rfl
  · exact Or.inl rfl

/-- With the flag enabled the SECURITY gate asks the flag, then the
authorization check. -/
theorem security_gate_events (K : Platform) (E : Env) (cred : ucred)
    (hflag : E.android_log_security = true) :
    (security_gate K E K.LOG_ID_SECURITY cred).2 =
      [Event.android_log_security,
       Event.clientHasLogCredentials cred.uid cred.gid cred.pid] := by
  unfold security_gate
  simp only [if_true, hflag]
  split_ifs <;> first | rfl | contradiction

/-- A datagram that passes the length check, self-suppression and the
category check has the naming step and the SECURITY gate at the head of its
trace. -/
theorem trace_after_gate (K : Platform) (E : Env) (self : LogListener)
    (name_set : Bool) (i : Input)
    (h1 : (K.sizeof_android_log_header_t : Int) < i.n)
    (h2 : (extract_cred K i).uid ≠ K.AID_LOGD)
    (h3 : (header_of K i).id < K.LOG_ID_MAX)
    (h4 : (header_of K i).id ≠ K.LOG_ID_KERNEL) :
    ∃ rest, (LogListener.onDataAvailable K E self name_set i).trace =
      set_name name_set ++
      (security_gate K E (header_of K i).id (extract_cred K i)).2 ++ rest := by
  unfold LogListener.onDataAvailable
  simp only [not_le.mpr h1, h2, not_le.mpr h3, h4, if_false, false_or, ge_iff_le]
  split_ifs
  · exact ⟨[], by simp⟩
  · split
    · exact ⟨_, rfl⟩
    · exact ⟨_, by simp only [List.append_assoc]; rfl⟩

/-- C18: for a SECURITY datagram, every call of `clientHasLogCredentials`
made by the method has the credential as extracted from the ancillary data
(or the fallback) as its arguments, not a repaired one; and when the datagram
passes the earlier checks and the flag is enabled, that call is made right
after the naming step and the flag, before any lookup. -/
theorem authorization_on_raw_credential (K : Platform) (E : Env)
    (self : LogListener) (name_set : Bool) (i : Input)
    (hsec : (header_of K i).id = K.LOG_ID_SECURITY) :
    (∀ c ∈ credentialChecks (LogListener.onDataAvailable K E self name_set i).trace,
      c = extract_cred K i) ∧
    ((K.sizeof_android_log_header_t : Int) < i.n →
      (extract_cred K i).uid ≠ K.AID_LOGD →
      K.LOG_ID_SECURITY < K.LOG_ID_MAX →
      K.LOG_ID_SECURITY ≠ K.LOG_ID_KERNEL →
      E.android_log_security = true →
      ∃ rest, (LogListener.onDataAvailable K E self name_set i).trace =
        set_name name_set ++
        Event.android_log_security ::
        Event.clientHasLogCredentials (extract_cred K i).uid (extract_cred K i).gid
          (extract_cred K i).pid :: rest) := by
  constructor
  · intro c hc
    have hg := credentialChecks_security_gate K E (header_of K i).id (extract_cred K i)
    rcases trace_shape K E self name_set i with h | h | h | ⟨cred1, h⟩ <;>
      rw [h] at hc <;> simp at hc <;> rcases hg with hg | hg <;>
      rw [hg] at hc <;> simp at hc <;> exact hc
  · intro h1 h2 h3 h4 hflag
    obtain ⟨rest, hr⟩ := trace_after_gate K E self name_set i h1 h2
      (by rw [hsec]; exact h3) (by rw [hsec]; exact h4)
    rw [hsec, security_gate_events K E _ hflag] at hr
    exact ⟨rest, by rw [hr]; simp⟩

/-- Instance for C18: a SECURITY datagram without credentials, flag enabled;
the authorization check is asked once, about `pid 0, uid 65534` (and the
group id the stack held), although thread 42 would resolve to process 100
and user 1000. -/
theorem authorization_on_raw_credential_witness :
    (header_of specPlatform (sample_input 5 [])).id = specPlatform.LOG_ID_SECURITY ∧
    credentialChecks (LogListener.onDataAvailable specPlatform root_group_env
      sample_listener false (sample_input 5 [])).trace = [⟨0, 65534, 0⟩] ∧
    (∀ c ∈ credentialChecks (LogListener.onDataAvailable specPlatform root_group_env
        sample_listener false (sample_input 5 [])).trace,
      c = extract_cred specPlatform (sample_input 5 [])) :=
  ⟨by decide, by decide,
   (authorization_on_raw_credential specPlatform root_group_env sample_listener
     false (sample_input 5 []) (by decide)).1⟩

/-! ## A supplied process id equal to the daemon's (C19) -/

/-- C19, refuted as stated: a MAIN datagram with credential `(7, 1000, 1000)`,
7 being the daemon's own process id, handed to a listener without storage
backend, is accepted, and `logbuf->log` is not called at all. -/
theorem supplied_self_pid_counterexample :
    (cred_cmsg ⟨7, 1000, 1000⟩).data.pid = (sample_env true true).getpid ∧
    (LogListener.onDataAvailable specPlatform (sample_env true true)
      { logbuf := none, reader := some LogReader.mk } false
      (sample_input LOG_ID_MAIN [cred_cmsg ⟨7, 1000, 1000⟩])).ret = true ∧
    ¬ ∃ c ∈ logCalls (LogListener.onDataAvailable specPlatform (sample_env true true)
        { logbuf := none, reader := some LogReader.mk } false
        (sample_input LOG_ID_MAIN [cred_cmsg ⟨7, 1000, 1000⟩])).trace,
      c.pid = (sample_env true true).getpid := by
  refine ⟨by decide, by decide, ?_⟩
  have h : logCalls (LogListener.onDataAvailable specPlatform (sample_env true true)
      { logbuf := none, reader := some LogReader.mk } false
      (sample_input LOG_ID_MAIN [cred_cmsg ⟨7, 1000, 1000⟩])).trace = [] := by decide
  rw [h]
  simp

/-- C19, amended: a datagram longer than the header, with a valid category
other than SECURITY and ancillary credentials whose `pid` is non-zero and
equal to `getpid()` and whose `uid` is neither `AID_LOGD` nor the overflow
sentinel, is accepted without any lookup (`tidToPid` is not called), and
when a storage backend is configured `logbuf->log` is called once, with
`pid` equal to `getpid()` (without a backend it is not called). -/
theorem supplied_self_pid (K : Platform) (E : Env) (self : LogListener)
    (name_set : Bool) (i : Input) (cred : ucred)
    (hlen : (K.sizeof_android_log_header_t : Int) < i.n)
    (hmax : (header_of K i).id < K.LOG_ID_MAX)
    (hker : (header_of K i).id ≠ K.LOG_ID_KERNEL)
    (hnsec : (header_of K i).id ≠ K.LOG_ID_SECURITY)
    (hcred : find_cred i.control = some cred)
    (hpid : cred.pid ≠ 0) (hself : cred.pid = E.getpid)
    (huid : cred.uid ≠ K.AID_LOGD)
    (hovf : cred.uid ≠ K.DEFAULT_OVERFLOWUID) :
    (LogListener.onDataAvailable K E self name_set i).ret = true ∧
    (∀ e ∈ (LogListener.onDataAvailable K E self name_set i).trace,
      e.isLookup = false) ∧
    (logCalls (LogListener.onDataAvailable K E self name_set i).trace).map
        LogCall.pid =
      (if self.logbuf.isSome then [E.getpid] else []) := by
  have hx : extract_cred K i = cred := by simp [extract_cred, hcred]
  have hg := security_gate_of_ne K E (header_of K i).id cred hnsec
  have hrp := repair_pid_of_ne E self.logbuf (header_of K i) cred hpid
  have hru := repair_uid_of_ne K E self.logbuf (header_of K i) cred hovf
  have hp : Passes K E self i cred :=
    ⟨hlen, by rw [hx]; exact huid, hmax, hker, by rw [hx, hg], by rw [hx, hrp]⟩
  refine ⟨by rw [onDataAvailable_of_passes K E self name_set i cred hp], ?_, ?_⟩
  · rw [onDataAvailable_of_passes K E self name_set i cred hp, hx, hrp, hru, hg]
    intro e he
    simp only [List.append_nil, List.mem_append] at he
    rcases he with he | he
    · exact isLookup_set_name _ e he
    · exact isLookup_dispatch _ _ e he
  · rw [logCalls_of_passes K E self name_set i cred hp, hru]
    split_ifs
    · simp [log_call, hself]
    · rfl

/-- Instance for C19: credential `(7, 1000, 1000)` with the daemon being
process 7, a storage backend configured: the datagram is stored with pid 7. -/
theorem supplied_self_pid_witness :
    (LogListener.onDataAvailable specPlatform (sample_env true true)
      sample_listener false
      (sample_input LOG_ID_MAIN [cred_cmsg ⟨7, 1000, 1000⟩])).ret = true ∧
    (logCalls (LogListener.onDataAvailable specPlatform (sample_env true true)
      sample_listener false
      (sample_input LOG_ID_MAIN [cred_cmsg ⟨7, 1000, 1000⟩])).trace).map
      LogCall.pid = [7] :=
  ⟨(supplied_self_pid specPlatform (sample_env true true) sample_listener false
      (sample_input LOG_ID_MAIN [cred_cmsg ⟨7, 1000, 1000⟩]) ⟨7, 1000, 1000⟩
      (by decide) (by decide) (by decide) (by decide) (by decide) (by decide)
      (by decide) (by decide) (by decide)).1,
   (supplied_self_pid specPlatform (sample_env true true) sample_listener false
      (sample_input LOG_ID_MAIN [cred_cmsg ⟨7, 1000, 1000⟩]) ⟨7, 1000, 1000⟩
      (by decide) (by decide) (by decide) (by decide) (by decide) (by decide)
      (by decide) (by decide) (by decide)).2.2⟩

/-! ## Process-id repair (C5) -/

/-- The naming step, the SECURITY gate, user-id repair and the dispatch step
never call `tidToPid`. -/
theorem isTidToPid_other_steps (K : Platform) (E : Env) (self : LogListener)
    (b : Bool) (logId : Nat) (cred cred1 : ucred) (header : android_log_header_t)
    (call : LogCall) :
    (set_name b).filter Event.isTidToPid = [] ∧
    (security_gate K E logId cred).2.filter Event.isTidToPid = [] ∧
    (repair_uid K E self.logbuf header cred1).2.filter Event.isTidToPid = [] ∧
    (dispatch self call).filter Event.isTidToPid = [] := by
  refine ⟨?_, ?_, ?_, ?_⟩
  · cases b <;> rfl
  · unfold security_gate
    split_ifs <;> rfl
  · unfold repair_uid call_pidToUid retry_pidToUid
    cases self.logbuf <;> simp only [] <;> split_ifs <;> rfl
  · unfold dispatch
    cases self.logbuf with
    | none => rfl
    | some lb => simp only []; split_ifs <;> rfl

/-- For a datagram that passes the checks before process-id repair and whose
credential has `pid` 0, the calls of `tidToPid` in the trace are exactly the
events of the one lookup of lines 111-112. -/
theorem tidToPid_calls_of_pid_zero (K : Platform) (E : Env) (self : LogListener)
    (name_set : Bool) (i : Input)
    (h1 : (K.sizeof_android_log_header_t : Int) < i.n)
    (h2 : (extract_cred K i).uid ≠ K.AID_LOGD)
    (h3 : (header_of K i).id < K.LOG_ID_MAX)
    (h4 : (header_of K i).id ≠ K.LOG_ID_KERNEL)
    (h5 : (security_gate K E (header_of K i).id (extract_cred K i)).1 = true)
    (hpid : (extract_cred K i).pid = 0) :
    (LogListener.onDataAvailable K E self name_set i).trace.filter Event.isTidToPid =
      (match self.logbuf with
       | some _ => [Event.logbuf_tidToPid ((header_of K i).tid : Int)]
       | none => [Event.android_tidToPid ((header_of K i).tid : Int)]) := by
  have hcall : (call_tidToPid E self.logbuf ((header_of K i).tid : Int)).2.filter
      Event.isTidToPid =
      (match self.logbuf with
       | some _ => [Event.logbuf_tidToPid ((header_of K i).tid : Int)]
       | none => [Event.android_tidToPid ((header_of K i).tid : Int)]) := by
    unfold call_tidToPid
    cases self.logbuf <;> rfl
  by_cases hself : (call_tidToPid E self.logbuf ((header_of K i).tid : Int)).1 = E.getpid
  · rw [onDataAvailable_of_self_pid K E self name_set i h1 h2 h3 h4 h5 hpid hself]
    obtain ⟨ha, hb, _, _⟩ := isTidToPid_other_steps K E self name_set
      (header_of K i).id (extract_cred K i) (extract_cred K i) (header_of K i)
      (log_call K i (extract_cred K i))
    simp only [List.filter_append, ha, hb, hcall, List.nil_append]
  · have hrp : repair_pid E self.logbuf (header_of K i) (extract_cred K i) =
        (some { extract_cred K i with
                pid := (call_tidToPid E self.logbuf ((header_of K i).tid : Int)).1 },
         (call_tidToPid E self.logbuf ((header_of K i).tid : Int)).2) := by
      unfold repair_pid
      simp [hpid, hself]
    have hp : Passes K E self i { extract_cred K i with
        pid := (call_tidToPid E self.logbuf ((header_of K i).tid : Int)).1 } :=
      ⟨h1, h2, h3, h4, h5, by rw [hrp]⟩
    rw [onDataAvailable_of_passes K E self name_set i _ hp, hrp]
    obtain ⟨ha, hb, hc, hd⟩ := isTidToPid_other_steps K E self name_set
      (header_of K i).id (extract_cred K i)
      { extract_cred K i with
        pid := (call_tidToPid E self.logbuf ((header_of K i).tid : Int)).1 }
      (header_of K i)
      (log_call K i (repair_uid K E self.logbuf (header_of K i)
        { extract_cred K i with
          pid := (call_tidToPid E self.logbuf ((header_of K i).tid : Int)).1 }).1)
    simp only [List.filter_append, ha, hb, hc, hd, hcall, List.nil_append,
      List.append_nil]

/-- C5: a datagram that passes the length check, self-suppression, the
category check and the SECURITY gate and whose credential has `pid` 0 (as
supplied, or because credentials are absent).  With a storage backend `lb`:
the only call of `tidToPid` in the trace is `logbuf->tidToPid(header->tid)`;
when `lb.tidToPid (header->tid)` is `getpid()` the datagram is dropped (false
returned, `logbuf->log` not called), and otherwise it is accepted and the
`pid` argument of the call of `logbuf->log` is `lb.tidToPid (header->tid)`.
Without a backend the only call is `android::tidToPid(header->tid)`, the
datagram is dropped exactly when its result is `getpid()`, and there is no
storage call. -/
theorem pid_repair (K : Platform) (E : Env) (self : LogListener)
    (name_set : Bool) (i : Input)
    (hlen : (K.sizeof_android_log_header_t : Int) < i.n)
    (huid : (extract_cred K i).uid ≠ K.AID_LOGD)
    (hmax : (header_of K i).id < K.LOG_ID_MAX)
    (hker : (header_of K i).id ≠ K.LOG_ID_KERNEL)
    (hsec : (header_of K i).id = K.LOG_ID_SECURITY →
      E.android_log_security = true ∧
      E.clientHasLogCredentials (extract_cred K i).uid (extract_cred K i).gid
        (extract_cred K i).pid = true)
    (hpid : (extract_cred K i).pid = 0) :
    (∀ lb, self.logbuf = some lb →
      (LogListener.onDataAvailable K E self name_set i).trace.filter
          Event.isTidToPid =
        [Event.logbuf_tidToPid ((header_of K i).tid : Int)] ∧
      (lb.tidToPid ((header_of K i).tid : Int) = E.getpid →
        (LogListener.onDataAvailable K E self name_set i).ret = false ∧
        logCalls (LogListener.onDataAvailable K E self name_set i).trace = []) ∧
      (lb.tidToPid ((header_of K i).tid : Int) ≠ E.getpid →
        (LogListener.onDataAvailable K E self name_set i).ret = true ∧
        (logCalls (LogListener.onDataAvailable K E self name_set i).trace).map
            LogCall.pid =
          [lb.tidToPid ((header_of K i).tid : Int)])) ∧
    (self.logbuf = none →
      (LogListener.onDataAvailable K E self name_set i).trace.filter
          Event.isTidToPid =
        [Event.android_tidToPid ((header_of K i).tid : Int)] ∧
      (E.tidToPid ((header_of K i).tid : Int) = E.getpid →
        (LogListener.onDataAvailable K E self name_set i).ret = false ∧
        logCalls (LogListener.onDataAvailable K E self name_set i).trace = []) ∧
      (E.tidToPid ((header_of K i).tid : Int) ≠ E.getpid →
        (LogListener.onDataAvailable K E self name_set i).ret = true ∧
        logCalls (LogListener.onDataAvailable K E self name_set i).trace = [])) := by
  have hgate := (security_gate_pass_iff K E (header_of K i).id (extract_cred K i)).mpr hsec
  have hcalls := tidToPid_calls_of_pid_zero K E self name_set i hlen huid hmax hker
    hgate hpid
  obtain ⟨_, hdrop, hkeep⟩ := repair_pid_outcome K E self name_set i hlen huid hmax
    hker hsec hpid
  constructor
  · intro lb hlb
    rw [hlb] at hcalls hdrop hkeep
    refine ⟨hcalls, fun h => hdrop h, fun h => ?_⟩
    have hk := hkeep h
    exact ⟨hk.1, by rw [hk.2]; rfl⟩
  · intro hnone
    rw [hnone] at hcalls hdrop hkeep
    refine ⟨hcalls, fun h => hdrop h, fun h => ?_⟩
    have hk := hkeep h
    refine ⟨hk.1, ?_⟩
    have hm := hk.2
    simpa using hm

/-- Instance for C5 (scenario 2 of the spec): credentials absent, the backend
maps thread 42 to process 100, the daemon is process 7: `logbuf->tidToPid(42)`
is the one `tidToPid` call and the record is stored with pid 100. -/
theorem pid_repair_witness :
    (LogListener.onDataAvailable specPlatform (sample_env true true)
      sample_listener false (sample_input LOG_ID_MAIN [])).trace.filter
      Event.isTidToPid = [Event.logbuf_tidToPid 42] ∧
    (LogListener.onDataAvailable specPlatform (sample_env true true)
      sample_listener false (sample_input LOG_ID_MAIN [])).ret = true ∧
    (logCalls (LogListener.onDataAvailable specPlatform (sample_env true true)
      sample_listener false (sample_input LOG_ID_MAIN [])).trace).map LogCall.pid
      = [100] :=
  ⟨((pid_repair specPlatform (sample_env true true) sample_listener false
      (sample_input LOG_ID_MAIN []) (by decide) (by decide) (by decide) (by decide)
      (by decide) (by decide)).1 sample_logbuf rfl).1,
   ((pid_repair specPlatform (sample_env true true) sample_listener false
      (sample_input LOG_ID_MAIN []) (by decide) (by decide) (by decide) (by decide)
      (by decide) (by decide)).1 sample_logbuf rfl).2.2 (by decide)⟩

/-! ## Length handed to storage (C10) -/

/-- C10, refuted as stated: handed to a listener without storage backend, an
accepted datagram has no length passed to `logbuf->log` at all.  On a
platform whose payload bound exceeds 65535, a datagram with a 65536-byte
payload, within the iovec length, is accepted and there is no call with
length 65535; on `specPlatform` the datagram with a 10-byte payload is
accepted and there is no call with length 10. -/
theorem length_clamped_counterexample :
    (wide_input LOG_ID_MAIN [cred_cmsg ⟨100, 1000, 1000⟩]).n
      ≤ (iov_len wide_platform : Int) ∧
    65535 < (wide_input LOG_ID_MAIN [cred_cmsg ⟨100, 1000, 1000⟩]).n
      - (wide_platform.sizeof_android_log_header_t : Int) ∧
    (LogListener.onDataAvailable wide_platform (sample_env true true)
      { logbuf := none, reader := some LogReader.mk } false
      (wide_input LOG_ID_MAIN [cred_cmsg ⟨100, 1000, 1000⟩])).ret = true ∧
    (¬ ∃ c ∈ logCalls (LogListener.onDataAvailable wide_platform
        (sample_env true true) { logbuf := none, reader := some LogReader.mk } false
        (wide_input LOG_ID_MAIN [cred_cmsg ⟨100, 1000, 1000⟩])).trace,
      c.len = 65535) ∧
    (LogListener.onDataAvailable specPlatform (sample_env true true)
      { logbuf := none, reader := some LogReader.mk } false
      (sample_input LOG_ID_MAIN [cred_cmsg ⟨100, 1000, 1000⟩])).ret = true ∧
    (¬ ∃ c ∈ logCalls (LogListener.onDataAvailable specPlatform
        (sample_env true true) { logbuf := none, reader := some LogReader.mk } false
        (sample_input LOG_ID_MAIN [cred_cmsg ⟨100, 1000, 1000⟩])).trace,
      c.len = 10) := by
  have h1 : logCalls (LogListener.onDataAvailable wide_platform (sample_env true true)
      { logbuf := none, reader := some LogReader.mk } false
      (wide_input LOG_ID_MAIN [cred_cmsg ⟨100, 1000, 1000⟩])).trace = [] := by decide
  have h2 : logCalls (LogListener.onDataAvailable specPlatform (sample_env true true)
      { logbuf := none, reader := some LogReader.mk } false
      (sample_input LOG_ID_MAIN [cred_cmsg ⟨100, 1000, 1000⟩])).trace = [] := by decide
  refine ⟨by decide, by decide, by decide, ?_, by decide, ?_⟩
  · rw [h1]
    simp
  · rw [h2]
    simp

/-- C10, amended: a datagram of `n` bytes (`n` an `ssize_t`, so below `2 ^ 63`)
that passes the length check `n > sizeof(android_log_header_t)`,
self-suppression, the category check, the SECURITY policy and the self-pid
check is accepted whatever its length, so it is never rejected for being too
long; when a storage backend is configured `logbuf->log` is called once, with
length the minimum of `n - sizeof(android_log_header_t)` and 65535, which is
at least 1, is exactly 65535 for a longer payload and is the exact length
otherwise; without a backend `logbuf->log` is not called. -/
theorem length_clamped (K : Platform) (E : Env) (self : LogListener)
    (name_set : Bool) (i : Input)
    (hrange : i.n < 2 ^ 63)
    (hlen : (K.sizeof_android_log_header_t : Int) < i.n)
    (huid : (extract_cred K i).uid ≠ K.AID_LOGD)
    (hmax : (header_of K i).id < K.LOG_ID_MAX)
    (hker : (header_of K i).id ≠ K.LOG_ID_KERNEL)
    (hsec : (header_of K i).id = K.LOG_ID_SECURITY →
      E.android_log_security = true ∧
      E.clientHasLogCredentials (extract_cred K i).uid (extract_cred K i).gid
        (extract_cred K i).pid = true)
    (hpid_lb : ∀ lb, self.logbuf = some lb → (extract_cred K i).pid = 0 →
      lb.tidToPid ((header_of K i).tid : Int) ≠ E.getpid)
    (hpid_none : self.logbuf = none → (extract_cred K i).pid = 0 →
      E.tidToPid ((header_of K i).tid : Int) ≠ E.getpid) :
    (LogListener.onDataAvailable K E self name_set i).ret = true ∧
    (∀ lb, self.logbuf = some lb →
      (logCalls (LogListener.onDataAvailable K E self name_set i).trace).map
          LogCall.len =
        [(min (i.n - (K.sizeof_android_log_header_t : Int)) 65535).toNat] ∧
      1 ≤ (min (i.n - (K.sizeof_android_log_header_t : Int)) 65535).toNat ∧
      (65535 < i.n - (K.sizeof_android_log_header_t : Int) →
        (logCalls (LogListener.onDataAvailable K E self name_set i).trace).map
            LogCall.len = [65535]) ∧
      (i.n - (K.sizeof_android_log_header_t : Int) ≤ 65535 →
        (logCalls (LogListener.onDataAvailable K E self name_set i).trace).map
            LogCall.len = [(i.n - (K.sizeof_android_log_header_t : Int)).toNat])) ∧
    (self.logbuf = none →
      logCalls (LogListener.onDataAvailable K E self name_set i).trace = []) := by
  have hself : (extract_cred K i).pid = 0 →
      (call_tidToPid E self.logbuf ((header_of K i).tid : Int)).1 ≠ E.getpid := by
    intro h0
    cases hlb : self.logbuf with
    | none => exact hpid_none hlb h0
    | some lb => exact hpid_lb lb hlb h0
  have hret : (LogListener.onDataAvailable K E self name_set i).ret = true :=
    (ret_true_iff K E self name_set i).mpr ⟨hlen, huid, hmax, hker, hsec, hself⟩
  rcases rejected_or_passes K E self name_set i with ⟨hr, _, _⟩ | ⟨cred1, hp⟩
  · rw [hr] at hret
    cases hret
  · have hc := clamp_len_eq (i.n - (K.sizeof_android_log_header_t : Int))
      (by omega) (by have := Int.ofNat_nonneg K.sizeof_android_log_header_t; omega)
    have hl : (log_call K i (repair_uid K E self.logbuf (header_of K i) cred1).1).len
        = (min (i.n - (K.sizeof_android_log_header_t : Int)) 65535).toNat := by
      have hl0 : (log_call K i (repair_uid K E self.logbuf (header_of K i) cred1).1).len
          = clamp_len (i.n - (K.sizeof_android_log_header_t : Int)) := rfl
      rw [hl0, ← hc]
      rfl
    refine ⟨hret, fun lb hlb => ?_, fun hnone => ?_⟩
    · have hmap : (logCalls (LogListener.onDataAvailable K E self name_set i).trace).map
          LogCall.len =
          [(min (i.n - (K.sizeof_android_log_header_t : Int)) 65535).toNat] := by
        rw [logCalls_of_passes K E self name_set i cred1 hp, hlb]
        simp only [Option.isSome_some, if_true, List.map_cons, List.map_nil]
        rw [← hlb, hl]
      refine ⟨hmap, by omega, fun hlong => ?_, fun hshort => ?_⟩
      · rw [hmap, min_eq_right (le_of_lt hlong)]
        rfl
      · rw [hmap, min_eq_left hshort]
    · rw [logCalls_of_passes K E self name_set i cred1 hp, hnone]
      rfl

/-- Instance for C10: on the platform with payload bound 70000, the datagram
of 65551 bytes (15-byte header, 65536-byte payload) without credentials,
thread 42 in process 100, is accepted and stored once, with length 65535. -/
theorem length_clamped_witness :
    (wide_input LOG_ID_MAIN []).n ≤ (iov_len wide_platform : Int) ∧
    65535 < (wide_input LOG_ID_MAIN []).n
      - (wide_platform.sizeof_android_log_header_t : Int) ∧
    (LogListener.onDataAvailable wide_platform (sample_env true true)
      sample_listener false (wide_input LOG_ID_MAIN [])).ret = true ∧
    (logCalls (LogListener.onDataAvailable wide_platform (sample_env true true)
      sample_listener false (wide_input LOG_ID_MAIN [])).trace).map
      LogCall.len = [65535] :=
  ⟨by decide, by decide,
   (length_clamped wide_platform (sample_env true true) sample_listener false
      (wide_input LOG_ID_MAIN [])
      (by decide) (by decide) (by decide) (by decide) (by decide) (by decide)
      (fun lb hlb _ => by
        have h := Option.some.inj hlb
        subst h
        decide)
      (fun hnone => Option.noConfusion hnone)).1,
   ((length_clamped wide_platform (sample_env true true) sample_listener false
      (wide_input LOG_ID_MAIN [])
      (by decide) (by decide) (by decide) (by decide) (by decide) (by decide)
      (fun lb hlb _ => by
        have h := Option.some.inj hlb
        subst h
        decide)
      (fun hnone => Option.noConfusion hnone)).2.1 sample_logbuf rfl).2.2.1
      (by decide)⟩

end Logd
